import Mathlib

/-!
Verification development for the DOM analyzer (`analyzePage.js`).

The file gives a shallow embedding of the analysis engine: the classifier
predicates (`isElementAccepted`, `isElementVisible`, `isInteractiveElement`,
`isTopElement`, `isInExpandedViewport`, `isInteractiveCandidate`,
`isHeuristicallyInteractive`, `isElementDistinctInteraction`,
`isTextNodeVisible`), the highlight indexer (`handleHighlighting`,
`highlightElement`), the tree builder (`buildDomTree`) and the entry points
(`analyzePage`, `cleanupHighlights`).

Modelling conventions:
- Browser geometry (bounding rects, client rect lists, offset sizes, computed
  styles, hit-test outcomes of `elementFromPoint`, availability of the
  event-listener introspection APIs, `checkVisibility` results) is input data
  carried on each element, since those are platform primitives the script only
  reads.  `getBoundingClientRect` always returns a rect in a browser, so the
  source's vacuous null-guards on it collapse.  The memoizing wrappers
  (`getCachedBoundingRect` and friends) are semantically the identity on this
  pure data and are modelled as plain field reads.
- Pixel coordinates are integers; none of the analyzed behaviour depends on
  fractional coordinates.
- Node ids are modelled as naturals; the source stringifies the same counter
  (`id = counter.toString()`), an injective renaming.
- `element.ownerDocument`/`getRootNode()`/`closest()`/`parentElement` facts are
  threaded through the traversal context (iframe / shadow membership, ancestor
  chain, whether the parent is the top document body), mirroring how the live
  DOM supplies them.
- `console.log`/`console.warn` output is modelled only for the final
  debug-mode log (a `World.console` entry); warnings on inaccessible iframes
  are not part of the output contract.
- The ghost field `BuildState.assigned` records highlight indices in the order
  the traversal assigns them (pre-order among selected nodes); it influences
  nothing else.
-/

set_option maxHeartbeats 2000000

/-- A DOMRect as read from `getBoundingClientRect` / `getClientRects`. -/
structure Rect where
  top : Int
  left : Int
  bottom : Int
  right : Int
  width : Int
  height : Int
deriving Repr, DecidableEq

/-- The computed-style fields the script reads. -/
structure Style where
  visibility : String
  display : String
  cursor : String
  opacity : String
deriving Repr, DecidableEq

/-- Outcome of one `elementFromPoint` hit test: no element at the point, an
element whose parent chain does or does not contain the tested element, or the
call throwing. -/
inductive HitOutcome where
  | noElement
  | hit (selfInChain : Bool)
  | throws
deriving Repr, DecidableEq

/-- Availability and behaviour of an event-listener introspection API
(`getEventListeners` / `getEventListenersForNode`): absent, present but
throwing when called, or returning the set of event types that have at least
one registered listener. -/
inductive APIResult where
  | absent
  | throwsOn
  | returns (types : List String)
deriving Repr, DecidableEq

/-- All per-element data the script reads from the platform. -/
structure ElemInfo where
  tagName : String
  /-- `element.id` ("" when absent). -/
  idAttr : String
  attributes : List (String × String)
  offsetWidth : Int
  offsetHeight : Int
  style : Style
  clientRects : List Rect
  boundingRect : Rect
  /-- `checkVisibility({checkOpacity, checkVisibilityCSS})`; `none` means the
  call throws (or the API is unsupported) so the style fallback runs. -/
  checkVisibilityAPI : Option Bool
  /-- The `element.disabled` property. -/
  disabledProp : Bool
  /-- The `element.readOnly` property. -/
  readOnlyProp : Bool
  /-- The `element.inert` property. -/
  inertProp : Bool
  /-- The `element.isContentEditable` property. -/
  contentEditableProp : Bool
  /-- Names of `on*` properties that hold functions (`typeof el[p] === "function"`). -/
  handlerProps : List String
  /-- DevTools `getEventListeners`. -/
  devtoolsListeners : APIResult
  /-- `getEventListenersForNode` (element or window scoped). -/
  nodeListeners : APIResult
  /-- `document.elementFromPoint` outcome at the centre check point. -/
  hitCenter : HitOutcome
  /-- Outcome at the inset top-left corner check point. -/
  hitCorner1 : HitOutcome
  /-- Outcome at the inset bottom-right corner check point. -/
  hitCorner2 : HitOutcome
  /-- `shadowRoot.elementFromPoint` outcome for shadow-tree elements. -/
  shadowHit : HitOutcome
deriving Repr, DecidableEq

mutual
/-- A DOM node: an element (with light-DOM children, optional shadow content
and, for iframes, the content-document access outcome), a text node carrying
its content and range client rects, or any other node kind. -/
inductive DomNode where
  | element (info : ElemInfo) (kids : DomForest) (shadow : ShadowSpec) (iframe : IframeSpec)
  | textNode (content : String) (rangeRects : List Rect)
  | other
/-- `childNodes` of a node, as a plain list specialized for mutual recursion. -/
inductive DomForest where
  | nil
  | cons (hd : DomNode) (tl : DomForest)
/-- `element.shadowRoot`: absent, or present with its child nodes. -/
inductive ShadowSpec where
  | noShadow
  | shadow (kids : DomForest)
/-- Result of reading `contentDocument || contentWindow?.document` on an
iframe: the access throwing (cross-origin), no document/body, or a body. -/
inductive IframeSpec where
  | accessThrows
  | noDoc
  | doc (body : DomNode)
end

/-- The analysis settings (`defaultArgs` merged with the caller's args). -/
structure Settings where
  doHighlightElements : Bool
  focusHighlightIndex : Int
  viewportExpansion : Int
  debugMode : Bool
  maxElements : Int
  prioritizeByImportance : Bool
deriving Repr, DecidableEq

/-- The source's `defaultArgs`. -/
def defaultArgs : Settings :=
  { doHighlightElements := true
    focusHighlightIndex := -1
    viewportExpansion := 0
    debugMode := false
    maxElements := 10000
    prioritizeByImportance := true }

/-- The values the traversal closes over: the destructured settings it reads
plus the window geometry.  `debugMode`, `maxElements` and
`prioritizeByImportance` are never read during the traversal, exactly as in
the source, so they are not part of this record. -/
structure Config where
  doHighlightElements : Bool
  focusHighlightIndex : Int
  viewportExpansion : Int
  innerWidth : Int
  innerHeight : Int
deriving Repr, DecidableEq

/-- One record of the flat output map (`DOM_HASH_MAP` values). -/
structure NodeData where
  tagName : String
  attributes : List (String × String)
  xpath : String
  children : List Nat
  text : Option String
  isVisible : Bool
  isTopElement : Bool
  isInteractive : Bool
  isInViewport : Bool
  shadowRoot : Bool
  highlightIndex : Option Nat
deriving Repr, DecidableEq

/-- What one pushed cleanup closure owns: its overlay boxes, its label, and
(implicitly) its two scroll/resize listeners. -/
structure CleanupRec where
  boxes : Nat
  hasLabel : Bool
deriving Repr, DecidableEq

/-- Overlay/UI state on the page: the singleton container, counts of overlay
boxes, labels and attached scroll/resize listeners currently in the DOM, and
the process-wide `window._highlightCleanupFunctions` list. -/
structure UIState where
  containerPresent : Bool
  boxes : Nat
  labels : Nat
  listeners : Nat
  cleanupFns : List CleanupRec
deriving Repr, DecidableEq

/-- A page with no overlays, no listeners, and no registered cleanups. -/
def emptyUI : UIState :=
  { containerPresent := false, boxes := 0, labels := 0, listeners := 0, cleanupFns := [] }

/-- Window-global state surrounding a run. -/
structure World where
  ui : UIState
  cleanupDefined : Bool
  console : List String
deriving Repr, DecidableEq

/-- Run-scoped traversal state: the id counter, the flat map (newest entry
first), the highlight-index counter, the ghost assignment trace, and the UI
state. -/
structure BuildState where
  nextId : Nat
  map : List (Nat × NodeData)
  hl : Nat
  assigned : List Nat
  ui : UIState
deriving Repr, DecidableEq

/-- The whole document as the analyzer sees it. -/
structure Page where
  body : ElemInfo
  bodyChildren : DomForest
  innerWidth : Int
  innerHeight : Int
  url : String
  title : String
  timestamp : String

/-- The output envelope (the fields the claims are about; the derived
`interactiveElements` text/description list is a pure function of `map` and
is not re-modelled here). -/
structure AnalysisResult where
  rootId : Option Nat
  map : List (Nat × NodeData)
  totalElements : Nat
  highlightedElements : Nat
  timestamp : String
  url : String
  title : String
deriving Repr, DecidableEq

def HIGHLIGHT_CONTAINER_ID : String := "dom-tree-analyzer-container"

/-- `getAttribute`: first binding of the name, or null. -/
def getAttr (attrs : List (String × String)) (name : String) : Option String :=
  (attrs.find? (fun p => p.1 = name)).map Prod.snd

/-- `hasAttribute`. -/
def hasAttr (attrs : List (String × String)) (name : String) : Bool :=
  (attrs.find? (fun p => p.1 = name)).isSome

/-- JS truthiness of `getAttribute(name)`: present and not the empty string. -/
def attrTruthy (attrs : List (String × String)) (name : String) : Bool :=
  match getAttr attrs name with
  | some v => v ≠ ""
  | none => false

/-- ASCII lower-casing of one character (`String.toLower` is compiled by
well-founded recursion and does not reduce in the kernel; tag names and the
strings compared here are ASCII, for which this is the same function). -/
def lowerChar (c : Char) : Char :=
  if 'A' ≤ c ∧ c ≤ 'Z' then Char.ofNat (c.toNat + 32) else c

/-- `String.toLower` as a kernel-reducible list map. -/
def strToLower (s : String) : String := String.mk (s.data.map lowerChar)

/-- `String.trim` as a kernel-reducible list operation. -/
def strTrim (s : String) : String :=
  String.mk (((s.data.dropWhile Char.isWhitespace).reverse.dropWhile
    Char.isWhitespace).reverse)

/-- Splitting at characters satisfying a predicate (the separators are
dropped; empty pieces are kept, as with `String.split`). -/
def splitCharsAux (p : Char → Bool) : List Char → List Char → List (List Char)
  | [], acc => [acc.reverse]
  | c :: cs, acc =>
      if p c then acc.reverse :: splitCharsAux p cs []
      else splitCharsAux p cs (c :: acc)

/-- `String.split` as a kernel-reducible list operation. -/
def splitChars (p : Char → Bool) (s : String) : List String :=
  (splitCharsAux p s.data []).map String.mk

/-- `element.classList` (a `DOMTokenList`: the class attribute split on ASCII
whitespace — space, tab, line feed, form feed, carriage return). -/
def classList (e : ElemInfo) : List String :=
  (splitChars (fun c => c = ' ' || c = '\t' || c = '\n' || c = '\x0c' || c = '\r')
    ((getAttr e.attributes "class").getD "")).filter (fun s => s ≠ "")

/-- Maximal word-character runs of a string, lower-cased; `\b(w)\b` matches a
string (case-insensitively) iff some run equals `w`. -/
def wordRuns (s : String) : List String :=
  ((splitChars (fun c => ¬ (c.isAlphanum ∨ c = '_')) (strToLower s)).filter (fun r => r ≠ ""))

def alwaysAcceptTags : List String :=
  ["body", "div", "main", "article", "section", "nav", "header", "footer"]

def leafElementDenyList : List String :=
  ["svg", "script", "style", "link", "meta", "noscript", "template"]

def interactiveCursors : List String :=
  ["pointer", "move", "text", "grab", "grabbing", "cell", "copy", "alias",
   "all-scroll", "col-resize", "context-menu", "crosshair", "e-resize",
   "ew-resize", "help", "n-resize", "ne-resize", "nesw-resize", "ns-resize",
   "nw-resize", "nwse-resize", "row-resize", "s-resize", "se-resize",
   "sw-resize", "vertical-text", "w-resize", "zoom-in", "zoom-out"]

def nonInteractiveCursors : List String :=
  ["not-allowed", "no-drop", "wait", "progress", "initial", "inherit"]

def interactiveElementTags : List String :=
  ["a", "button", "input", "select", "textarea", "details", "summary",
   "label", "option", "optgroup", "fieldset", "legend"]

/-- The interactive-roles set used inside `isInteractiveElement`. -/
def interactiveRolesIE : List String :=
  ["button", "menu", "menubar", "menuitem", "menuitemradio", "menuitemcheckbox",
   "radio", "checkbox", "tab", "switch", "slider", "spinbutton", "combobox",
   "searchbox", "textbox", "listbox", "option", "scrollbar"]

def DISTINCT_INTERACTIVE_TAGS : List String :=
  ["a", "button", "input", "select", "textarea", "summary", "details", "label", "option"]

def INTERACTIVE_ROLES : List String :=
  ["button", "link", "menuitem", "menuitemradio", "menuitemcheckbox",
   "radio", "checkbox", "tab", "switch", "slider", "spinbutton",
   "combobox", "searchbox", "textbox", "listbox", "option", "scrollbar"]

def candidateTags : List String :=
  ["a", "button", "input", "select", "textarea", "details", "summary", "label"]

def mouseEvents : List String := ["click", "mousedown", "mouseup", "dblclick"]

def interactionEvents : List String :=
  ["click", "mousedown", "mouseup", "keydown", "keyup", "submit", "change",
   "input", "focus", "blur"]

def commonMouseAttrs : List String :=
  ["onclick", "onmousedown", "onmouseup", "ondblclick"]

def commonEventAttrs : List String :=
  ["onmousedown", "onmouseup", "onkeydown", "onkeyup", "onsubmit", "onchange",
   "oninput", "onfocus", "onblur"]

def interactiveClassWords : List String :=
  ["btn", "clickable", "menu", "item", "entry", "link"]

def highlightColors : List String :=
  ["#FF0000", "#00FF00", "#0000FF", "#FFA500", "#800080", "#008080",
   "#FF69B4", "#4B0082", "#FF4500", "#2E8B57", "#DC143C", "#4682B4"]

/-- Is a client rect outside the expanded viewport window? -/
def rectOutside (cfg : Config) (r : Rect) : Bool :=
  decide (r.bottom < -cfg.viewportExpansion) ||
  decide (r.top > cfg.innerHeight + cfg.viewportExpansion) ||
  decide (r.right < -cfg.viewportExpansion) ||
  decide (r.left > cfg.innerWidth + cfg.viewportExpansion)

/-- `isElementAccepted`. -/
def isElementAccepted (e : ElemInfo) : Bool :=
  if e.tagName = "" then false
  else
    let tagName := (strToLower e.tagName)
    if tagName ∈ alwaysAcceptTags then true
    else ¬ (tagName ∈ leafElementDenyList)

/-- `isElementVisible`. -/
def isElementVisible (e : ElemInfo) : Bool :=
  decide (e.offsetWidth > 0) && decide (e.offsetHeight > 0) &&
  (e.style.visibility ≠ "hidden") && (e.style.display ≠ "none")

/-- `isInteractiveElement`, with the source's short-circuit order: interactive
cursor, interactive tag (minus disabled/readonly/inert), content-editable,
class/attribute markers, interactive role, then listener introspection inside
one try block (a throw there skips the remaining in-block checks). -/
def isInteractiveElement (e : ElemInfo) : Bool :=
  let tagName := (strToLower e.tagName)
  let attrsCheck := commonMouseAttrs.any (fun a => hasAttr e.attributes a || a ∈ e.handlerProps)
  let afterDevtools : Bool :=
    match e.nodeListeners with
    | .throwsOn => false
    | .absent => attrsCheck
    | .returns types =>
        if types.any (fun t => interactionEvents.contains t) then true else attrsCheck
  let listenerBlock : Bool :=
    match e.devtoolsListeners with
    | .throwsOn => false
    | .absent => afterDevtools
    | .returns types =>
        if types.any (fun t => mouseEvents.contains t) then true else afterDevtools
  if tagName ≠ "html" && e.style.cursor ∈ interactiveCursors then true
  else if tagName ∈ interactiveElementTags then
    if e.style.cursor ∈ nonInteractiveCursors then false
    else if hasAttr e.attributes "disabled" || getAttr e.attributes "disabled" = some "true" ||
            getAttr e.attributes "disabled" = some "" then false
    else if hasAttr e.attributes "readonly" || getAttr e.attributes "readonly" = some "true" ||
            getAttr e.attributes "readonly" = some "" then false
    else if e.disabledProp || e.readOnlyProp || e.inertProp then false
    else true
  else if getAttr e.attributes "contenteditable" = some "true" || e.contentEditableProp then true
  else if (classList e).contains "button" || (classList e).contains "dropdown-toggle" ||
          attrTruthy e.attributes "data-index" ||
          getAttr e.attributes "data-toggle" = some "dropdown" ||
          getAttr e.attributes "aria-haspopup" = some "true" then true
  else if (match getAttr e.attributes "role" with
           | some r => r ≠ "" && r ∈ interactiveRolesIE
           | none => false) ||
          (match getAttr e.attributes "aria-role" with
           | some r => r ≠ "" && r ∈ interactiveRolesIE
           | none => false) then true
  else listenerBlock

/-- Evaluate one `elementFromPoint` probe as the source's callback does
(`catch` returns true). -/
def hitProbe (h : HitOutcome) : Bool :=
  match h with
  | .noElement => false
  | .hit b => b
  | .throws => true

/-- `isTopElement`.  `inIframe` models `element.ownerDocument ≠
window.document`; `inShadow` models `getRootNode() instanceof ShadowRoot`. -/
def isTopElement (cfg : Config) (inIframe inShadow : Bool) (e : ElemInfo) : Bool :=
  if cfg.viewportExpansion = -1 then true
  else
    let rects := e.clientRects
    if rects.isEmpty then false
    else if ¬ rects.any (fun r =>
        decide (r.width > 0) && decide (r.height > 0) && ¬ rectOutside cfg r) then false
    else if inIframe then true
    else if inShadow then hitProbe e.shadowHit
    else [e.hitCenter, e.hitCorner1, e.hitCorner2].any hitProbe

/-- `isInExpandedViewport`. -/
def isInExpandedViewport (cfg : Config) (e : ElemInfo) : Bool :=
  if cfg.viewportExpansion = -1 then true
  else if e.clientRects.isEmpty then
    let br := e.boundingRect
    if br.width = 0 || br.height = 0 then false
    else ¬ rectOutside cfg br
  else
    e.clientRects.any (fun r =>
      ¬ (r.width = 0 || r.height = 0) && ¬ rectOutside cfg r)

/-- `isInteractiveCandidate` (the attribute literally named "aria-" is what
the source checks). -/
def isInteractiveCandidate (e : ElemInfo) : Bool :=
  let tagName := (strToLower e.tagName)
  tagName ∈ candidateTags ||
  hasAttr e.attributes "onclick" || hasAttr e.attributes "role" ||
  hasAttr e.attributes "tabindex" || hasAttr e.attributes "aria-" ||
  hasAttr e.attributes "data-action" ||
  getAttr e.attributes "contenteditable" = some "true"

/-- Does an element match the `closest` selector
`button,a,[role="button"],.menu,.dropdown,.list,.toolbar`? -/
def knownContainerMatch (e : ElemInfo) : Bool :=
  (strToLower e.tagName) = "button" || (strToLower e.tagName) = "a" ||
  getAttr e.attributes "role" = some "button" ||
  (classList e).contains "menu" || (classList e).contains "dropdown" ||
  (classList e).contains "list" || (classList e).contains "toolbar"

/-- `isHeuristicallyInteractive`.  `kids` is `element.children` (element
children), `anc` the ancestor elements visible to `closest` (nearest first,
stopping at shadow/iframe boundaries), `parentIsBody` whether `parentElement`
is the top document body. -/
def isHeuristicallyInteractive (e : ElemInfo) (kids : List ElemInfo)
    (anc : List ElemInfo) (parentIsBody : Bool) : Bool :=
  if ¬ isElementVisible e then false
  else
    let hasInteractiveAttributes := hasAttr e.attributes "role" ||
      hasAttr e.attributes "tabindex" || hasAttr e.attributes "onclick" ||
      "onclick" ∈ e.handlerProps
    let hasInteractiveClass :=
      (wordRuns ((getAttr e.attributes "class").getD "")).any
        (fun w => interactiveClassWords.contains w)
    let isInKnownContainer := (e :: anc).any knownContainerMatch
    let hasVisibleChildren := kids.any isElementVisible
    (isInteractiveElement e || hasInteractiveAttributes || hasInteractiveClass) &&
    hasVisibleChildren && isInKnownContainer && ¬ parentIsBody

/-- `isElementDistinctInteraction`.  The listener try block mirrors the
source: a throwing `getEventListenersForNode` skips the in-block attribute
check but still falls through to the heuristic fallback. -/
def isElementDistinctInteraction (e : ElemInfo) (kids : List ElemInfo)
    (anc : List ElemInfo) (parentIsBody : Bool) : Bool :=
  let tagName := (strToLower e.tagName)
  let heuristic := isHeuristicallyInteractive e kids anc parentIsBody
  if tagName = "iframe" then true
  else if tagName ∈ DISTINCT_INTERACTIVE_TAGS then true
  else if (match getAttr e.attributes "role" with
           | some r => r ≠ "" && r ∈ INTERACTIVE_ROLES
           | none => false) then true
  else if e.contentEditableProp || getAttr e.attributes "contenteditable" = some "true" then true
  else if hasAttr e.attributes "data-testid" || hasAttr e.attributes "data-cy" ||
          hasAttr e.attributes "data-test" then true
  else if hasAttr e.attributes "onclick" || "onclick" ∈ e.handlerProps then true
  else
    match e.nodeListeners with
    | .throwsOn => heuristic
    | .absent => if commonEventAttrs.any (fun a => hasAttr e.attributes a) then true else heuristic
    | .returns types =>
        if types.any (fun t => interactionEvents.contains t) then true
        else if commonEventAttrs.any (fun a => hasAttr e.attributes a) then true
        else heuristic

/-- `checkVisibility` with the computed-style fallback used when the call
throws. -/
def checkVisibleOrStyle (p : ElemInfo) : Bool :=
  match p.checkVisibilityAPI with
  | some b => b
  | none =>
      (p.style.display ≠ "none") && (p.style.visibility ≠ "hidden") && (p.style.opacity ≠ "0")

/-- `isTextNodeVisible` on a text node with range client rects `rrects` and
parent element `parent` (`none` when `parentElement` is null). -/
def isTextNodeVisible (cfg : Config) (rrects : List Rect) (parent : Option ElemInfo) : Bool :=
  if cfg.viewportExpansion = -1 then
    match parent with
    | none => false
    | some p => checkVisibleOrStyle p
  else
    let visRects := rrects.filter (fun r => decide (r.width > 0) && decide (r.height > 0))
    if visRects.isEmpty then false
    else if ¬ visRects.any (fun r => ¬ rectOutside cfg r) then false
    else
      match parent with
      | none => false
      | some p => checkVisibleOrStyle p

/-- `highlightElement`.  The overlay container is created (if absent) before
the client-rect check, so even a rect-less element leaves the container
behind.  With no client rects the function returns before creating overlays,
label or listeners, and its cleanup closure is never pushed.  Otherwise it
creates one overlay box per non-empty client rect, one label, attaches the
throttled scroll and resize listeners, and pushes one cleanup closure owning
exactly those resources.  Box/label pixel placement (source lines 153-210)
only sets rendering attributes and is not recorded beyond these counts. -/
def highlightElement (index : Nat) (e : ElemInfo) (ui : UIState) : UIState :=
  let ui0 := { ui with containerPresent := true }
  if e.clientRects.isEmpty then ui0
  else
    let newBoxes := (e.clientRects.filter (fun r => ¬ (r.width = 0 || r.height = 0))).length
    let _colorIndex := index % highlightColors.length
    { ui0 with
      boxes := ui0.boxes + newBoxes
      labels := ui0.labels + 1
      listeners := ui0.listeners + 2
      cleanupFns := ui0.cleanupFns ++ [{ boxes := newBoxes, hasLabel := true }] }

/-- One registered cleanup closure running: it removes its own overlay boxes
and label and detaches its two listeners. -/
def runCleanupFn (ui : UIState) (r : CleanupRec) : UIState :=
  { ui with
    boxes := ui.boxes - r.boxes
    labels := ui.labels - (if r.hasLabel then 1 else 0)
    listeners := ui.listeners - 2 }

/-- `window.cleanupHighlights`: if the cleanup list is non-empty, run every
closure and reset the list; then remove the overlay container if present. -/
def cleanupHighlights (ui : UIState) : UIState :=
  let ui1 :=
    if ui.cleanupFns.isEmpty then ui
    else { ui.cleanupFns.foldl runCleanupFn ui with cleanupFns := [] }
  { ui1 with containerPresent := false }

/-- `handleHighlighting(nodeData, node, parentIframe, isParentHighlighted)`.
`pih` is `isParentHighlighted`; `kids`/`anc`/`parentIsBody` feed the
distinct-interaction check; `parentIframe` is only needed for overlay offsets
(not recorded).  Returns (whether the caller should thread "parent
highlighted" to children, the updated node record, the updated state).  Note
a node that gets an index with `doHighlightElements = false` still returns
`false` here, exactly as in the source. -/
def handleHighlighting (cfg : Config) (pih : Bool) (e : ElemInfo)
    (kids : List ElemInfo) (anc : List ElemInfo) (parentIsBody : Bool)
    (nd : NodeData) (st : BuildState) : Bool × NodeData × BuildState :=
  if ¬ nd.isInteractive then (false, nd, st)
  else
    let shouldHighlight :=
      if ¬ pih then true
      else if isElementDistinctInteraction e kids anc parentIsBody then true
      else false
    if shouldHighlight then
      let inVp := isInExpandedViewport cfg e
      let nd1 := { nd with isInViewport := inVp }
      if inVp || cfg.viewportExpansion = -1 then
        let idx := st.hl
        let nd2 := { nd1 with highlightIndex := some idx }
        let st1 := { st with hl := idx + 1, assigned := st.assigned ++ [idx] }
        if cfg.doHighlightElements then
          let ui2 :=
            if cfg.focusHighlightIndex ≥ 0 then
              if cfg.focusHighlightIndex = (idx : Int) then highlightElement idx e st1.ui
              else st1.ui
            else highlightElement idx e st1.ui
          (true, nd2, { st1 with ui := ui2 })
        else (false, nd2, st1)
      else (false, nd1, st)
    else (false, nd, st)

/-- Traversal context threaded through `buildDomTree` (the source threads
`parentIframe` and `isParentHighlighted` explicitly; the rest are facts the
live DOM supplies through `parentElement` / `ownerDocument` / `getRootNode` /
`closest`). -/
structure NodeCtx where
  /-- `parentElement` of the node being visited (`none` when the parent is a
  shadow root or an unmodelled iframe-document element). -/
  parent : Option ElemInfo
  /-- Ancestor elements visible to `closest`, nearest first. -/
  ancestors : List ElemInfo
  /-- Whether `parentElement` is the top document body. -/
  parentIsBody : Bool
  /-- Whether `ownerDocument` differs from the top window document. -/
  inIframe : Bool
  /-- Whether `getRootNode()` is a ShadowRoot. -/
  inShadow : Bool
  /-- The `parentIframe` argument (geometry offset for overlays). -/
  parentIframe : Option ElemInfo
  /-- The `isParentHighlighted` argument. -/
  isParentHighlighted : Bool

/-- Lower-cased tags of the element children of a forest (what
`getElementPosition` counts same-tag siblings over). -/
def forestElemTags : DomForest → List String
  | .nil => []
  | .cons (.element info _ _ _) t => (strToLower info.tagName) :: forestElemTags t
  | .cons _ t => forestElemTags t

/-- `ElemInfo`s of the element children of a forest (`element.children`). -/
def forestElemInfos : DomForest → List ElemInfo
  | .nil => []
  | .cons (.element info _ _ _) t => info :: forestElemInfos t
  | .cons _ t => forestElemInfos t

/-- `getElementPosition` followed by segment formatting: position among
same-tag element siblings (0 when the tag is unique), rendered as
`tag[position]` when positive. -/
def xpathSegment (tag : String) (allTags seenTags : List String) : String :=
  let total := allTags.count tag
  let pos := if total = 1 then 0 else seenTags.count tag + 1
  if pos > 0 then tag ++ "[" ++ toString pos ++ "]" else tag

/-- The xpath segment list of one child (first component) and the updated
seen-element-tags accumulator (second component).  `base = none` marks direct
shadow children, whose xpath is "" because `getXPathTree` breaks at the
shadow boundary before emitting their own segment. -/
def childSegs (base : Option (List String)) (allTags seenTags : List String) :
    DomNode → List String × List String
  | .element info _ _ _ =>
      ((match base with
        | some pre => pre ++ [xpathSegment (strToLower info.tagName) allTags seenTags]
        | none => []), seenTags ++ [(strToLower info.tagName)])
  | _ => ((match base with | some pre => pre | none => []), seenTags)

/-- The initial node record of an element (source lines 932-951), including
the selective attribute capture. -/
def elemInit (info : ElemInfo) (segs : List String) (shadowPresent : Bool) : NodeData :=
  let tag := (strToLower info.tagName)
  { tagName := tag
    attributes :=
      if isInteractiveCandidate info || tag = "iframe" || tag = "body" then info.attributes
      else []
    xpath := String.intercalate "/" segs, children := [], text := none
    isVisible := false, isTopElement := false, isInteractive := false
    isInViewport := false, shadowRoot := shadowPresent, highlightIndex := none }

/-- The classification step of `buildDomTree` for an element (source lines
953-966): visibility, then interactivity and top-ness, then the highlight
decision when both hold. -/
def elemClassify (cfg : Config) (cx : NodeCtx) (info : ElemInfo)
    (kidInfos : List ElemInfo) (nd0 : NodeData) (st : BuildState) :
    Bool × NodeData × BuildState :=
  if isElementVisible info then
    let inter := isInteractiveElement info
    let top := isTopElement cfg cx.inIframe cx.inShadow info
    let nd1 := { nd0 with isVisible := true, isInteractive := inter, isTopElement := top }
    if inter && top then
      handleHighlighting cfg cx.isParentHighlighted info kidInfos cx.ancestors
        cx.parentIsBody nd1 st
    else (false, nd1, st)
  else (false, nd0, st)

/-- The tail of `buildDomTree` for an element (source lines 1006-1016):
empty-anchor pruning, then id assignment and insertion into the flat map. -/
def elemFinish (info : ElemInfo) (nd1 : NodeData) (allIds : List Nat)
    (st3 : BuildState) : Option Nat × BuildState :=
  if nd1.tagName = "a" && allIds.isEmpty && ¬ attrTruthy nd1.attributes "href" &&
     info.boundingRect.width = 0 && info.boundingRect.height = 0 then (none, st3)
  else
    let nd2 := { nd1 with children := allIds }
    let id := st3.nextId
    (some id, { st3 with nextId := id + 1, map := (id, nd2) :: st3.map })

mutual
/-- `buildDomTree(node, parentIframe, isParentHighlighted)`.  `segs` is the
xpath segment list of the node (its `getXPathTree` value is
`String.intercalate "/" segs`); the caller computes it because the live DOM
derives it from the parent chain. -/
def buildDomTree (cfg : Config) (cx : NodeCtx) (segs : List String)
    (st : BuildState) : DomNode → Option Nat × BuildState
  | .other => (none, st)
  | .textNode content rrects =>
      let t := strTrim content
      if t = "" then (none, st)
      else
        match cx.parent with
        | none => (none, st)
        | some p =>
            if ¬ isTextNodeVisible cfg rrects (some p) then (none, st)
            else
              let nd : NodeData :=
                { tagName := "#text", attributes := [], xpath := "", children := []
                  text := some t, isVisible := true, isTopElement := false
                  isInteractive := false
                  isInViewport := isInExpandedViewport cfg p
                  shadowRoot := false, highlightIndex := none }
              let id := st.nextId
              (some id, { st with nextId := id + 1, map := (id, nd) :: st.map })
  | .element info kids shadow ifr =>
      if info.idAttr = HIGHLIGHT_CONTAINER_ID then (none, st)
      else if ¬ isElementAccepted info then (none, st)
      else if cfg.viewportExpansion ≠ -1 &&
              (match shadow with | .noShadow => true | .shadow _ => false) &&
              info.boundingRect.width = 0 && info.boundingRect.height = 0 then (none, st)
      else
        let nd0 := elemInit info segs (match shadow with | .noShadow => false | .shadow _ => true)
        let step1 := elemClassify cfg cx info (forestElemInfos kids) nd0 st
        let step2 :=
          if info.tagName = "" then ([], step1.2.2)
          else if (strToLower info.tagName) = "iframe" then
            elemIframe cfg info step1.1 step1.2.2 ifr
          else
            let cx2 : NodeCtx :=
              { parent := some info, ancestors := info :: cx.ancestors
                parentIsBody := false, inIframe := cx.inIframe, inShadow := cx.inShadow
                parentIframe := cx.parentIframe, isParentHighlighted := step1.1 }
            buildKids cfg cx2 (some segs) (forestElemTags kids) [] step1.2.2 kids
        let step3 := elemShadow cfg cx info step1.1 step2.2 shadow
        elemFinish info step1.2.1 (step2.1 ++ step3.1) step3.2
/-- Iframe-content handling of `buildDomTree` (source lines 973-984): a
throwing `contentDocument` access is caught and the subtree skipped; a
reachable body is recursed with the iframe as the new geometry offset and the
iframe's own highlight outcome as the parent-highlighted flag. -/
def elemIframe (cfg : Config) (info : ElemInfo) (wasHighlighted : Bool)
    (st : BuildState) : IframeSpec → List Nat × BuildState
  | .accessThrows => ([], st)
  | .noDoc => ([], st)
  | .doc body =>
      let cx2 : NodeCtx :=
        { parent := none, ancestors := [], parentIsBody := false
          inIframe := true, inShadow := false, parentIframe := some info
          isParentHighlighted := wasHighlighted }
      match buildDomTree cfg cx2 ["html", "body"] st body with
      | (some cid, st2) => ([cid], st2)
      | (none, st2) => ([], st2)
/-- Shadow-DOM handling of `buildDomTree` (source lines 996-1003): shadow
children are traversed after light-DOM children, as additional children of
the host.  A direct shadow child's `parentElement` is null in the DOM, so a
text node there is always dropped by `isTextNodeVisible`. -/
def elemShadow (cfg : Config) (cx : NodeCtx) (info : ElemInfo)
    (wasHighlighted : Bool) (st : BuildState) : ShadowSpec → List Nat × BuildState
  | .noShadow => ([], st)
  | .shadow sKids =>
      let cx3 : NodeCtx :=
        { parent := none, ancestors := [], parentIsBody := false
          inIframe := cx.inIframe, inShadow := true
          parentIframe := cx.parentIframe, isParentHighlighted := wasHighlighted }
      buildKids cfg cx3 none (forestElemTags sKids) [] st sKids
/-- The child-processing loop of `buildDomTree`: each non-null child id is
pushed onto the parent's list.  `base = some pre` threads the xpath prefix;
`base = none` marks direct shadow children, whose own xpath is "" because
`getXPathTree` stops at the shadow boundary before emitting their segment. -/
def buildKids (cfg : Config) (cx : NodeCtx) (base : Option (List String))
    (allTags seenTags : List String) (st : BuildState) :
    DomForest → List Nat × BuildState
  | .nil => ([], st)
  | .cons n rest =>
      let segInfo := childSegs base allTags seenTags n
      let res := buildDomTree cfg cx segInfo.1 st n
      let rest2 := buildKids cfg cx base allTags segInfo.2 res.2 rest
      ((match res.1 with | some i => i :: rest2.1 | none => rest2.1), rest2.2)
end

/-- The core run: the root `document.body` special case (always tagged body,
always visible/top/in-viewport, empty attributes, children built the same
way, inserted after its children), returning the root id and final state. -/
def analyzeCore (cfg : Config) (page : Page) (ui : UIState) : Option Nat × BuildState :=
  let st0 : BuildState := { nextId := 0, map := [], hl := 0, assigned := [], ui := ui }
  if page.body.idAttr = HIGHLIGHT_CONTAINER_ID then (none, st0)
  else
    let cx : NodeCtx :=
      { parent := some page.body, ancestors := [page.body], parentIsBody := true
        inIframe := false, inShadow := false, parentIframe := none
        isParentHighlighted := false }
    let kres := buildKids cfg cx (some ["html", "body"])
      (forestElemTags page.bodyChildren) [] st0 page.bodyChildren
    let bodyNd : NodeData :=
      { tagName := "body", attributes := [], xpath := "html/body"
        children := kres.1, text := none, isVisible := true, isTopElement := true
        isInteractive := false, isInViewport := true, shadowRoot := false
        highlightIndex := none }
    let rid := kres.2.nextId
    (some rid, { kres.2 with nextId := rid + 1, map := (rid, bodyNd) :: kres.2.map })

/-- `analyzePage(args)`: build the flat map from `document.body`, define
`window.cleanupHighlights`, count highlighted entries, assemble the result
envelope, and log it when `debugMode` is set. -/
def analyzePage (args : Settings) (page : Page) (w : World) : AnalysisResult × World :=
  let cfg : Config :=
    { doHighlightElements := args.doHighlightElements
      focusHighlightIndex := args.focusHighlightIndex
      viewportExpansion := args.viewportExpansion
      innerWidth := page.innerWidth, innerHeight := page.innerHeight }
  let core := analyzeCore cfg page w.ui
  let st := core.2
  let res : AnalysisResult :=
    { rootId := core.1, map := st.map, totalElements := st.map.length
      highlightedElements := (st.map.filter (fun p => p.2.highlightIndex.isSome)).length
      timestamp := page.timestamp, url := page.url, title := page.title }
  let console2 := if args.debugMode then w.console ++ ["DOM Analysis Result"] else w.console
  (res, { ui := st.ui, cleanupDefined := true, console := console2 })

/-- The highlight indices present in a result map. -/
def mapIndices (m : List (Nat × NodeData)) : List Nat :=
  m.filterMap (fun p => p.2.highlightIndex)

/-- The ids present in a result map. -/
def mapKeys (m : List (Nat × NodeData)) : List Nat :=
  m.map Prod.fst

/-- The accounting invariant tying the DOM overlay content to the registry of
cleanup closures: every overlay box, label and listener is owned by exactly
one registered closure. -/
def UIinv (ui : UIState) : Prop :=
  ui.boxes = (ui.cleanupFns.map CleanupRec.boxes).sum ∧
  ui.labels = (ui.cleanupFns.filter CleanupRec.hasLabel).length ∧
  ui.listeners = 2 * ui.cleanupFns.length

theorem highlightElement_uiinv (i : Nat) (e : ElemInfo) (ui : UIState)
    (h : UIinv ui) : UIinv (highlightElement i e ui) := by
  obtain ⟨h1, h2, h3⟩ := h
  unfold highlightElement UIinv
  split
  · exact ⟨h1, h2, h3⟩
  · simp only [List.map_append, List.filter_append, List.sum_append,
      List.length_append, List.map_cons, List.map_nil, List.sum_cons,
      List.sum_nil, List.length_cons, List.length_nil]
    refine ⟨by omega, ?_, by omega⟩
    simp [h2]

theorem handleHighlighting_state (cfg : Config) (pih : Bool) (e : ElemInfo)
    (kids anc : List ElemInfo) (pib : Bool) (nd : NodeData) (st : BuildState) :
    (handleHighlighting cfg pih e kids anc pib nd st).2.2.map = st.map ∧
    (handleHighlighting cfg pih e kids anc pib nd st).2.2.nextId = st.nextId := by
  unfold handleHighlighting
  dsimp only
  repeat' split
  all_goals exact ⟨rfl, rfl⟩

theorem handleHighlighting_nd (cfg : Config) (pih : Bool) (e : ElemInfo)
    (kids anc : List ElemInfo) (pib : Bool) (nd : NodeData) (st : BuildState) :
    (handleHighlighting cfg pih e kids anc pib nd st).2.1.children = nd.children ∧
    (handleHighlighting cfg pih e kids anc pib nd st).2.1.tagName = nd.tagName ∧
    (handleHighlighting cfg pih e kids anc pib nd st).2.1.attributes = nd.attributes := by
  unfold handleHighlighting
  dsimp only
  repeat' split
  all_goals exact ⟨rfl, rfl, rfl⟩

theorem handleHighlighting_assign (cfg : Config) (pih : Bool) (e : ElemInfo)
    (kids anc : List ElemInfo) (pib : Bool) (nd : NodeData) (st : BuildState) :
    ((handleHighlighting cfg pih e kids anc pib nd st).2.1.highlightIndex = nd.highlightIndex ∧
     (handleHighlighting cfg pih e kids anc pib nd st).2.2.hl = st.hl ∧
     (handleHighlighting cfg pih e kids anc pib nd st).2.2.assigned = st.assigned) ∨
    ((handleHighlighting cfg pih e kids anc pib nd st).2.1.highlightIndex = some st.hl ∧
     (handleHighlighting cfg pih e kids anc pib nd st).2.2.hl = st.hl + 1 ∧
     (handleHighlighting cfg pih e kids anc pib nd st).2.2.assigned = st.assigned ++ [st.hl]) := by
  unfold handleHighlighting
  dsimp only
  repeat' split
  all_goals first
    | exact Or.inl ⟨rfl, rfl, rfl⟩
    | exact Or.inr ⟨rfl, rfl, rfl⟩

theorem handleHighlighting_ui_off (cfg : Config) (pih : Bool) (e : ElemInfo)
    (kids anc : List ElemInfo) (pib : Bool) (nd : NodeData) (st : BuildState)
    (h : cfg.doHighlightElements = false) :
    (handleHighlighting cfg pih e kids anc pib nd st).2.2.ui = st.ui := by
  unfold handleHighlighting
  dsimp only
  repeat' split
  all_goals first
    | rfl
    | (exfalso; simp_all)

theorem handleHighlighting_uiinv (cfg : Config) (pih : Bool) (e : ElemInfo)
    (kids anc : List ElemInfo) (pib : Bool) (nd : NodeData) (st : BuildState)
    (h : UIinv st.ui) :
    UIinv (handleHighlighting cfg pih e kids anc pib nd st).2.2.ui := by
  unfold handleHighlighting
  dsimp only
  repeat' split
  all_goals first
    | exact h
    | exact highlightElement_uiinv st.hl e st.ui h

theorem elemClassify_state (cfg : Config) (cx : NodeCtx) (info : ElemInfo)
    (ki : List ElemInfo) (nd0 : NodeData) (st : BuildState) :
    (elemClassify cfg cx info ki nd0 st).2.2.map = st.map ∧
    (elemClassify cfg cx info ki nd0 st).2.2.nextId = st.nextId := by
  unfold elemClassify
  dsimp only
  repeat' split
  all_goals first
    | exact ⟨rfl, rfl⟩
    | exact handleHighlighting_state cfg cx.isParentHighlighted info ki cx.ancestors
        cx.parentIsBody _ st

theorem elemClassify_nd (cfg : Config) (cx : NodeCtx) (info : ElemInfo)
    (ki : List ElemInfo) (nd0 : NodeData) (st : BuildState) :
    (elemClassify cfg cx info ki nd0 st).2.1.children = nd0.children ∧
    (elemClassify cfg cx info ki nd0 st).2.1.tagName = nd0.tagName ∧
    (elemClassify cfg cx info ki nd0 st).2.1.attributes = nd0.attributes := by
  unfold elemClassify
  dsimp only
  repeat' split
  all_goals first
    | exact ⟨rfl, rfl, rfl⟩
    | exact handleHighlighting_nd cfg cx.isParentHighlighted info ki cx.ancestors
        cx.parentIsBody _ st

theorem elemClassify_assign (cfg : Config) (cx : NodeCtx) (info : ElemInfo)
    (ki : List ElemInfo) (nd0 : NodeData) (st : BuildState) :
    ((elemClassify cfg cx info ki nd0 st).2.1.highlightIndex = nd0.highlightIndex ∧
     (elemClassify cfg cx info ki nd0 st).2.2.hl = st.hl ∧
     (elemClassify cfg cx info ki nd0 st).2.2.assigned = st.assigned) ∨
    ((elemClassify cfg cx info ki nd0 st).2.1.highlightIndex = some st.hl ∧
     (elemClassify cfg cx info ki nd0 st).2.2.hl = st.hl + 1 ∧
     (elemClassify cfg cx info ki nd0 st).2.2.assigned = st.assigned ++ [st.hl]) := by
  unfold elemClassify
  dsimp only
  repeat' split
  all_goals first
    | exact Or.inl ⟨rfl, rfl, rfl⟩
    | exact handleHighlighting_assign cfg cx.isParentHighlighted info ki cx.ancestors
        cx.parentIsBody _ st

theorem elemClassify_ui_off (cfg : Config) (cx : NodeCtx) (info : ElemInfo)
    (ki : List ElemInfo) (nd0 : NodeData) (st : BuildState)
    (h : cfg.doHighlightElements = false) :
    (elemClassify cfg cx info ki nd0 st).2.2.ui = st.ui := by
  unfold elemClassify
  dsimp only
  repeat' split
  all_goals first
    | rfl
    | exact handleHighlighting_ui_off cfg cx.isParentHighlighted info ki cx.ancestors
        cx.parentIsBody _ st h

theorem elemClassify_uiinv (cfg : Config) (cx : NodeCtx) (info : ElemInfo)
    (ki : List ElemInfo) (nd0 : NodeData) (st : BuildState)
    (h : UIinv st.ui) :
    UIinv (elemClassify cfg cx info ki nd0 st).2.2.ui := by
  unfold elemClassify
  dsimp only
  repeat' split
  all_goals first
    | exact h
    | exact handleHighlighting_uiinv cfg cx.isParentHighlighted info ki cx.ancestors
        cx.parentIsBody _ st h

theorem elemFinish_state (info : ElemInfo) (nd1 : NodeData) (ids : List Nat)
    (st : BuildState) :
    (elemFinish info nd1 ids st).2.ui = st.ui ∧
    (elemFinish info nd1 ids st).2.hl = st.hl ∧
    (elemFinish info nd1 ids st).2.assigned = st.assigned := by
  unfold elemFinish
  dsimp only
  split
  · exact ⟨rfl, rfl, rfl⟩
  · exact ⟨rfl, rfl, rfl⟩

/-- Claim C9: for every DOM and every settings object, running analyze with
`debugMode = true` and with `debugMode = false` produces identical
classification outcomes — the same result envelope (map, indices, counts) and
the same overlay state; `debugMode` only appends the final-result log entry to
the console. -/
theorem C9_debugMode_pure (s : Settings) (b1 b2 : Bool) (page : Page) (w : World) :
    (analyzePage { s with debugMode := b1 } page w).1 =
      (analyzePage { s with debugMode := b2 } page w).1 ∧
    (analyzePage { s with debugMode := b1 } page w).2.ui =
      (analyzePage { s with debugMode := b2 } page w).2.ui ∧
    (analyzePage { s with debugMode := true } page w).2.console =
      w.console ++ ["DOM Analysis Result"] ∧
    (analyzePage { s with debugMode := false } page w).2.console = w.console := by
  cases s
  exact ⟨rfl, rfl, rfl, rfl⟩

theorem runCleanup_zero (fns : List CleanupRec) (ui : UIState)
    (hb : ui.boxes = (fns.map CleanupRec.boxes).sum)
    (hl : ui.labels = (fns.filter CleanupRec.hasLabel).length)
    (hs : ui.listeners = 2 * fns.length) :
    (fns.foldl runCleanupFn ui).boxes = 0 ∧ (fns.foldl runCleanupFn ui).labels = 0 ∧
    (fns.foldl runCleanupFn ui).listeners = 0 ∧
    (fns.foldl runCleanupFn ui).containerPresent = ui.containerPresent ∧
    (fns.foldl runCleanupFn ui).cleanupFns = ui.cleanupFns := by
  induction fns generalizing ui with
  | nil => simp_all
  | cons r rest ih =>
      simp only [List.foldl_cons]
      have h1 : (runCleanupFn ui r).boxes = (rest.map CleanupRec.boxes).sum := by
        simp only [runCleanupFn, List.map_cons, List.sum_cons] at hb ⊢
        omega
      have h2 : (runCleanupFn ui r).labels = (rest.filter CleanupRec.hasLabel).length := by
        simp only [runCleanupFn]
        by_cases hr : r.hasLabel <;> simp [hr, List.filter_cons] at hl ⊢ <;> omega
      have h3 : (runCleanupFn ui r).listeners = 2 * rest.length := by
        simp only [runCleanupFn, List.length_cons] at hs ⊢
        omega
      have := ih (runCleanupFn ui r) h1 h2 h3
      simp only [runCleanupFn] at this
      exact ⟨this.1, this.2.1, this.2.2.1, this.2.2.2.1, this.2.2.2.2⟩

/-- Under the accounting invariant, one cleanup call restores the pristine UI
state: every overlay box and label removed, every listener detached, the
cleanup registry emptied and the container removed. -/
theorem cleanupHighlights_clears (ui : UIState) (h : UIinv ui) :
    cleanupHighlights ui = emptyUI := by
  obtain ⟨hb, hl, hs⟩ := h
  unfold cleanupHighlights
  dsimp only
  split
  · rename_i hemp
    simp only [List.isEmpty_iff] at hemp
    rw [hemp] at hb hl hs
    simp only [List.map_nil, List.sum_nil] at hb
    simp only [List.filter_nil, List.length_nil] at hl
    simp only [List.length_nil, Nat.mul_zero] at hs
    simp [emptyUI, UIState.mk.injEq, hb, hl, hs, hemp]
  · have hz := runCleanup_zero ui.cleanupFns ui hb hl hs
    simp [emptyUI, UIState.mk.injEq, hz.1, hz.2.1, hz.2.2.1]

theorem cleanupHighlights_fns (ui : UIState) :
    (cleanupHighlights ui).cleanupFns.isEmpty = true ∧
    (cleanupHighlights ui).containerPresent = false := by
  unfold cleanupHighlights
  dsimp only
  split
  · rename_i hemp
    exact ⟨hemp, rfl⟩
  · simp

theorem mapKeys_mem {m : List (Nat × NodeData)} {k : Nat} :
    k ∈ mapKeys m ↔ ∃ p ∈ m, p.1 = k := by
  simp [mapKeys]

theorem mapIndices_mem {m : List (Nat × NodeData)} {i : Nat} :
    i ∈ mapIndices m ↔ ∃ p ∈ m, p.2.highlightIndex = some i := by
  simp [mapIndices]

theorem mapKeys_append (a b : List (Nat × NodeData)) :
    mapKeys (a ++ b) = mapKeys a ++ mapKeys b := by
  simp [mapKeys]

theorem mapIndices_append (a b : List (Nat × NodeData)) :
    mapIndices (a ++ b) = mapIndices a ++ mapIndices b := by
  simp [mapIndices]

/-- How one traversal step evolves the run state: the flat map grows by a
block `new` of fresh entries whose ids live in `[st.nextId, stF.nextId)` and
whose child references stay inside the block below their own id; the
highlight counter advances and the ghost trace extends by exactly the
consecutive indices it stepped through; indices recorded in the block live in
`[st.hl, stF.hl)` without repetition; and the UI only changes through
highlighting (unchanged when rendering is off, invariant-preserving always). -/
structure NewOK (cfg : Config) (st stF : BuildState)
    (new : List (Nat × NodeData)) : Prop where
  map_eq : stF.map = new ++ st.map
  id_mono : st.nextId ≤ stF.nextId
  key_bounds : ∀ p ∈ new, st.nextId ≤ p.1 ∧ p.1 < stF.nextId
  key_nodup : (mapKeys new).Nodup
  child_ok : ∀ p ∈ new, ∀ c ∈ p.2.children, c < p.1 ∧ c ∈ mapKeys new
  hl_mono : st.hl ≤ stF.hl
  assigned_eq : stF.assigned = st.assigned ++ List.range' st.hl (stF.hl - st.hl)
  idx_bounds : ∀ i ∈ mapIndices new, st.hl ≤ i ∧ i < stF.hl
  idx_nodup : (mapIndices new).Nodup
  ui_off : cfg.doHighlightElements = false → stF.ui = st.ui
  ui_inv : UIinv st.ui → UIinv stF.ui

theorem NewOK.refl (cfg : Config) (st : BuildState) : NewOK cfg st st [] := by
  refine ⟨by simp, le_refl _, by simp, by simp [mapKeys], by simp, le_refl _,
    by simp, by simp [mapIndices], by simp [mapIndices], fun _ => rfl, fun h => h⟩

theorem NewOK.of_eq (cfg : Config) (st stF : BuildState)
    (hm : stF.map = st.map) (hi : stF.nextId = st.nextId) (hh : stF.hl = st.hl)
    (ha : stF.assigned = st.assigned) (hu : stF.ui = st.ui) :
    NewOK cfg st stF [] := by
  refine ⟨by simp [hm], le_of_eq hi.symm, by simp, by simp [mapKeys], by simp,
    le_of_eq hh.symm, by simp [ha, hh], by simp [mapIndices], by simp [mapIndices],
    fun _ => hu, fun h => hu ▸ h⟩

theorem NewOK.trans {cfg : Config} {st st1 st2 : BuildState}
    {n1 n2 : List (Nat × NodeData)}
    (a : NewOK cfg st st1 n1) (b : NewOK cfg st1 st2 n2) :
    NewOK cfg st st2 (n2 ++ n1) := by
  refine ⟨?_, le_trans a.id_mono b.id_mono, ?_, ?_, ?_,
    le_trans a.hl_mono b.hl_mono, ?_, ?_, ?_, ?_, ?_⟩
  · rw [b.map_eq, a.map_eq, List.append_assoc]
  · intro p hp
    rcases List.mem_append.1 hp with h | h
    · exact ⟨le_trans a.id_mono (b.key_bounds p h).1, (b.key_bounds p h).2⟩
    · exact ⟨(a.key_bounds p h).1, lt_of_lt_of_le (a.key_bounds p h).2 b.id_mono⟩
  · rw [mapKeys_append]
    refine List.Nodup.append b.key_nodup a.key_nodup ?_
    intro k hk2 hk1
    rcases mapKeys_mem.1 hk2 with ⟨p, hp, hpk⟩
    rcases mapKeys_mem.1 hk1 with ⟨q, hq, hqk⟩
    have h2 := (b.key_bounds p hp).1
    have h1 := (a.key_bounds q hq).2
    omega
  · intro p hp c hc
    rcases List.mem_append.1 hp with h | h
    · refine ⟨((b.child_ok p h) c hc).1, ?_⟩
      rw [mapKeys_append]
      exact List.mem_append.2 (Or.inl ((b.child_ok p h) c hc).2)
    · refine ⟨((a.child_ok p h) c hc).1, ?_⟩
      rw [mapKeys_append]
      exact List.mem_append.2 (Or.inr ((a.child_ok p h) c hc).2)
  · rw [b.assigned_eq, a.assigned_eq, List.append_assoc]
    have h1 := a.hl_mono
    have h2 := b.hl_mono
    have e1 : st.hl + (st1.hl - st.hl) = st1.hl := by omega
    have : List.range' st.hl (st1.hl - st.hl) ++ List.range' st1.hl (st2.hl - st1.hl) =
        List.range' st.hl (st2.hl - st.hl) :=
      calc List.range' st.hl (st1.hl - st.hl) ++ List.range' st1.hl (st2.hl - st1.hl)
          = List.range' st.hl (st1.hl - st.hl) ++
              List.range' (st.hl + (st1.hl - st.hl)) (st2.hl - st1.hl) := by rw [e1]
        _ = List.range' st.hl ((st2.hl - st1.hl) + (st1.hl - st.hl)) :=
              List.range'_append_1 ..
        _ = List.range' st.hl (st2.hl - st.hl) := by congr 1; omega
    rw [this]
  · intro i hi
    rw [mapIndices_append] at hi
    rcases List.mem_append.1 hi with h | h
    · exact ⟨le_trans a.hl_mono (b.idx_bounds i h).1, (b.idx_bounds i h).2⟩
    · exact ⟨(a.idx_bounds i h).1, lt_of_lt_of_le (a.idx_bounds i h).2 b.hl_mono⟩
  · rw [mapIndices_append]
    refine List.Nodup.append b.idx_nodup a.idx_nodup ?_
    intro i hi2 hi1
    have h2 := (b.idx_bounds i hi2).1
    have h1 := (a.idx_bounds i hi1).2
    omega
  · intro hoff
    rw [b.ui_off hoff, a.ui_off hoff]
  · exact fun h => b.ui_inv (a.ui_inv h)

theorem elemClassify_ok (cfg : Config) (cx : NodeCtx) (info : ElemInfo)
    (ki : List ElemInfo) (nd0 : NodeData) (st : BuildState) :
    NewOK cfg st (elemClassify cfg cx info ki nd0 st).2.2 [] := by
  have hst := elemClassify_state cfg cx info ki nd0 st
  have has := elemClassify_assign cfg cx info ki nd0 st
  refine ⟨by simp [hst.1], le_of_eq hst.2.symm, by simp, by simp [mapKeys], by simp,
    ?_, ?_, by simp [mapIndices], by simp [mapIndices],
    elemClassify_ui_off cfg cx info ki nd0 st,
    elemClassify_uiinv cfg cx info ki nd0 st⟩
  · rcases has with ⟨_, hh, _⟩ | ⟨_, hh, _⟩ <;> omega
  · rcases has with ⟨_, hh, ha⟩ | ⟨_, hh, ha⟩
    · rw [ha, hh]
      simp
    · rw [ha, hh]
      simp [List.range'_one]

theorem NewOK.insertLeaf (cfg : Config) (st : BuildState) (nd : NodeData)
    (hch : nd.children = []) (hidx : nd.highlightIndex = none) :
    NewOK cfg st { st with nextId := st.nextId + 1, map := (st.nextId, nd) :: st.map }
      [(st.nextId, nd)] := by
  refine ⟨by simp, by dsimp only; omega, ?_, by simp [mapKeys], ?_, le_refl _, by simp,
    ?_, ?_, fun _ => rfl, fun h => h⟩
  · intro p hp
    simp only [List.mem_singleton] at hp
    subst hp
    dsimp only
    omega
  · intro p hp c hc
    simp only [List.mem_singleton] at hp
    subst hp
    simp only [hch] at hc
    exact absurd hc (List.not_mem_nil c)
  · intro i hi
    simp [mapIndices, hidx] at hi
  · simp [mapIndices, hidx]

theorem NewOK.insertElem {cfg : Config} {st st1 st3 : BuildState}
    {new23 : List (Nat × NodeData)}
    (hc : NewOK cfg st st1 [])
    (hk : NewOK cfg st1 st3 new23)
    (nd : NodeData)
    (hch : ∀ c ∈ nd.children, c ∈ mapKeys new23)
    (hidx : nd.highlightIndex = none ∨ (nd.highlightIndex = some st.hl ∧ st1.hl = st.hl + 1)) :
    NewOK cfg st { st3 with nextId := st3.nextId + 1, map := (st3.nextId, nd) :: st3.map }
      ((st3.nextId, nd) :: new23) := by
  have base : NewOK cfg st st3 (new23 ++ []) := hc.trans hk
  rw [List.append_nil] at base
  have hkeylt : ∀ k ∈ mapKeys new23, k < st3.nextId := by
    intro k hkk
    rcases mapKeys_mem.1 hkk with ⟨p, hp, hpk⟩
    subst hpk
    exact (base.key_bounds p hp).2
  refine ⟨by simp [base.map_eq], by have := base.id_mono; dsimp only; omega, ?_, ?_, ?_,
    base.hl_mono, base.assigned_eq, ?_, ?_, base.ui_off, base.ui_inv⟩
  · intro p hp
    rcases List.mem_cons.1 hp with h | h
    · subst h
      have := base.id_mono
      dsimp only
      omega
    · have := base.key_bounds p h
      dsimp only
      omega
  · simp only [mapKeys, List.map_cons]
    refine List.Nodup.cons ?_ base.key_nodup
    intro hmem
    exact absurd hmem (by
      intro hm
      exact absurd (hkeylt _ hm) (by omega))
  · intro p hp c hc2
    rcases List.mem_cons.1 hp with h | h
    · subst h
      simp only at hc2
      refine ⟨hkeylt c (hch c hc2), ?_⟩
      simp only [mapKeys, List.map_cons, List.mem_cons]
      exact Or.inr (hch c hc2)
    · have := (base.child_ok p h) c hc2
      refine ⟨this.1, ?_⟩
      simp only [mapKeys, List.map_cons, List.mem_cons]
      exact Or.inr this.2
  · intro i hi
    simp only [mapIndices, List.filterMap_cons] at hi
    rcases hidx with hnone | ⟨hsome, hh1⟩
    · rw [hnone] at hi
      simp only at hi
      exact base.idx_bounds i hi
    · rw [hsome] at hi
      simp only [List.mem_cons] at hi
      rcases hi with h | h
      · subst h
        have := hk.hl_mono
        constructor
        · exact le_refl _
        · simp only
          omega
      · exact base.idx_bounds i h
  · simp only [mapIndices, List.filterMap_cons]
    rcases hidx with hnone | ⟨hsome, hh1⟩
    · rw [hnone]
      exact base.idx_nodup
    · rw [hsome]
      refine List.Nodup.cons ?_ base.idx_nodup
      intro hmem
      have := (hk.idx_bounds _ hmem).1
      omega


/-- The shared tail of the element case: classification step, then children
and shadow blocks, then `elemFinish` (prune or insert). -/
theorem finish_case {cfg : Config} {st stC st2 st3 : BuildState}
    {n2 n3 : List (Nat × NodeData)} {info : ElemInfo} {nd1 : NodeData}
    {ids2 ids3 : List Nat}
    (h1 : NewOK cfg st stC [])
    (h2 : NewOK cfg stC st2 n2) (m2 : ∀ i ∈ ids2, i ∈ mapKeys n2)
    (h3 : NewOK cfg st2 st3 n3) (m3 : ∀ i ∈ ids3, i ∈ mapKeys n3)
    (hnd : nd1.highlightIndex = none ∨
      (nd1.highlightIndex = some st.hl ∧ stC.hl = st.hl + 1)) :
    ∃ new, NewOK cfg st (elemFinish info nd1 (ids2 ++ ids3) st3).2 new ∧
      ∀ i, (elemFinish info nd1 (ids2 ++ ids3) st3).1 = some i → i ∈ mapKeys new := by
  have hk : NewOK cfg stC st3 (n3 ++ n2) := h2.trans h3
  simp only [elemFinish]
  split
  · exact ⟨(n3 ++ n2) ++ [], h1.trans hk, by simp⟩
  · refine ⟨(st3.nextId, { nd1 with children := ids2 ++ ids3 }) :: (n3 ++ n2), ?_, ?_⟩
    · refine NewOK.insertElem h1 hk _ ?_ ?_
      · intro c hc
        simp only at hc
        rw [mapKeys_append]
        rcases List.mem_append.1 hc with h | h
        · exact List.mem_append.2 (Or.inr (m2 c h))
        · exact List.mem_append.2 (Or.inl (m3 c h))
      · simpa using hnd
    · intro i hi
      simp only [Option.some.injEq] at hi
      subst hi
      simp [mapKeys]

mutual
theorem buildDomTree_ok (cfg : Config) (cx : NodeCtx) (segs : List String)
    (st : BuildState) (n : DomNode) :
    ∃ new, NewOK cfg st (buildDomTree cfg cx segs st n).2 new ∧
      ∀ i, (buildDomTree cfg cx segs st n).1 = some i → i ∈ mapKeys new := by
  cases n with
  | other =>
      refine ⟨[], ?_, ?_⟩
      · simpa [buildDomTree] using NewOK.refl cfg st
      · simp [buildDomTree]
  | textNode content rrects =>
      simp only [buildDomTree]
      split
      · exact ⟨[], NewOK.refl cfg st, by simp⟩
      · split
        · exact ⟨[], NewOK.refl cfg st, by simp⟩
        · split
          · exact ⟨[], NewOK.refl cfg st, by simp⟩
          · refine ⟨_, NewOK.insertLeaf cfg st _ rfl rfl, ?_⟩
            intro i hi
            simp only [Option.some.injEq] at hi
            subst hi
            simp [mapKeys]
  | element info kids sh ifr =>
      cases sh with
      | noShadow =>
          simp only [buildDomTree]
          split
          · exact ⟨[], NewOK.refl cfg st, by simp⟩
          · split
            · exact ⟨[], NewOK.refl cfg st, by simp⟩
            · split
              · exact ⟨[], NewOK.refl cfg st, by simp⟩
              · have h1 := elemClassify_ok cfg cx info (forestElemInfos kids)
                  (elemInit info segs false) st
                have hnd : (elemClassify cfg cx info (forestElemInfos kids)
                      (elemInit info segs false)
                      st).2.1.highlightIndex = none ∨
                    ((elemClassify cfg cx info (forestElemInfos kids)
                      (elemInit info segs false)
                      st).2.1.highlightIndex = some st.hl ∧
                     (elemClassify cfg cx info (forestElemInfos kids)
                      (elemInit info segs false)
                      st).2.2.hl = st.hl + 1) := by
                  rcases elemClassify_assign cfg cx info (forestElemInfos kids)
                    (elemInit info segs false) st with
                    ⟨ha, _, _⟩ | ⟨ha, hb, _⟩
                  · exact Or.inl (by rw [ha]; rfl)
                  · exact Or.inr ⟨ha, hb⟩
                split
                · obtain ⟨n3, h3, m3⟩ := elemShadow_ok cfg cx info
                    (elemClassify cfg cx info (forestElemInfos kids)
                      (elemInit info segs false) st).1
                    (elemClassify cfg cx info (forestElemInfos kids)
                      (elemInit info segs false) st).2.2
                    ShadowSpec.noShadow
                  exact finish_case h1 (NewOK.refl cfg _) (by simp) h3 m3 hnd
                · split
                  · obtain ⟨n2, h2, m2⟩ := elemIframe_ok cfg info
                      (elemClassify cfg cx info (forestElemInfos kids)
                        (elemInit info segs false) st).1
                      (elemClassify cfg cx info (forestElemInfos kids)
                        (elemInit info segs false) st).2.2
                      ifr
                    obtain ⟨n3, h3, m3⟩ := elemShadow_ok cfg cx info
                      (elemClassify cfg cx info (forestElemInfos kids)
                        (elemInit info segs false) st).1
                      (elemIframe cfg info
                        (elemClassify cfg cx info (forestElemInfos kids)
                          (elemInit info segs false) st).1
                        (elemClassify cfg cx info (forestElemInfos kids)
                          (elemInit info segs false) st).2.2
                        ifr).2
                      ShadowSpec.noShadow
                    exact finish_case h1 h2 m2 h3 m3 hnd
                  · obtain ⟨n2, h2, m2⟩ := buildKids_ok cfg
                      { parent := some info, ancestors := info :: cx.ancestors
                        parentIsBody := false, inIframe := cx.inIframe, inShadow := cx.inShadow
                        parentIframe := cx.parentIframe
                        isParentHighlighted :=
                          (elemClassify cfg cx info (forestElemInfos kids)
                            (elemInit info segs false) st).1 }
                      (some segs) (forestElemTags kids) []
                      (elemClassify cfg cx info (forestElemInfos kids)
                        (elemInit info segs false) st).2.2
                      kids
                    obtain ⟨n3, h3, m3⟩ := elemShadow_ok cfg cx info
                      (elemClassify cfg cx info (forestElemInfos kids)
                        (elemInit info segs false) st).1
                      (buildKids cfg
                        { parent := some info, ancestors := info :: cx.ancestors
                          parentIsBody := false, inIframe := cx.inIframe, inShadow := cx.inShadow
                          parentIframe := cx.parentIframe
                          isParentHighlighted :=
                            (elemClassify cfg cx info (forestElemInfos kids)
                              (elemInit info segs false) st).1 }
                        (some segs) (forestElemTags kids) []
                        (elemClassify cfg cx info (forestElemInfos kids)
                          (elemInit info segs false) st).2.2
                        kids).2
                      ShadowSpec.noShadow
                    exact finish_case h1 h2 m2 h3 m3 hnd

      | shadow sKids =>
          simp only [buildDomTree]
          split
          · exact ⟨[], NewOK.refl cfg st, by simp⟩
          · split
            · exact ⟨[], NewOK.refl cfg st, by simp⟩
            · split
              · exact ⟨[], NewOK.refl cfg st, by simp⟩
              · have h1 := elemClassify_ok cfg cx info (forestElemInfos kids)
                  (elemInit info segs true) st
                have hnd : (elemClassify cfg cx info (forestElemInfos kids)
                      (elemInit info segs true)
                      st).2.1.highlightIndex = none ∨
                    ((elemClassify cfg cx info (forestElemInfos kids)
                      (elemInit info segs true)
                      st).2.1.highlightIndex = some st.hl ∧
                     (elemClassify cfg cx info (forestElemInfos kids)
                      (elemInit info segs true)
                      st).2.2.hl = st.hl + 1) := by
                  rcases elemClassify_assign cfg cx info (forestElemInfos kids)
                    (elemInit info segs true) st with
                    ⟨ha, _, _⟩ | ⟨ha, hb, _⟩
                  · exact Or.inl (by rw [ha]; rfl)
                  · exact Or.inr ⟨ha, hb⟩
                split
                · obtain ⟨n3, h3, m3⟩ := elemShadow_ok cfg cx info
                    (elemClassify cfg cx info (forestElemInfos kids)
                      (elemInit info segs true) st).1
                    (elemClassify cfg cx info (forestElemInfos kids)
                      (elemInit info segs true) st).2.2
                    (ShadowSpec.shadow sKids)
                  exact finish_case h1 (NewOK.refl cfg _) (by simp) h3 m3 hnd
                · split
                  · obtain ⟨n2, h2, m2⟩ := elemIframe_ok cfg info
                      (elemClassify cfg cx info (forestElemInfos kids)
                        (elemInit info segs true) st).1
                      (elemClassify cfg cx info (forestElemInfos kids)
                        (elemInit info segs true) st).2.2
                      ifr
                    obtain ⟨n3, h3, m3⟩ := elemShadow_ok cfg cx info
                      (elemClassify cfg cx info (forestElemInfos kids)
                        (elemInit info segs true) st).1
                      (elemIframe cfg info
                        (elemClassify cfg cx info (forestElemInfos kids)
                          (elemInit info segs true) st).1
                        (elemClassify cfg cx info (forestElemInfos kids)
                          (elemInit info segs true) st).2.2
                        ifr).2
                      (ShadowSpec.shadow sKids)
                    exact finish_case h1 h2 m2 h3 m3 hnd
                  · obtain ⟨n2, h2, m2⟩ := buildKids_ok cfg
                      { parent := some info, ancestors := info :: cx.ancestors
                        parentIsBody := false, inIframe := cx.inIframe, inShadow := cx.inShadow
                        parentIframe := cx.parentIframe
                        isParentHighlighted :=
                          (elemClassify cfg cx info (forestElemInfos kids)
                            (elemInit info segs true) st).1 }
                      (some segs) (forestElemTags kids) []
                      (elemClassify cfg cx info (forestElemInfos kids)
                        (elemInit info segs true) st).2.2
                      kids
                    obtain ⟨n3, h3, m3⟩ := elemShadow_ok cfg cx info
                      (elemClassify cfg cx info (forestElemInfos kids)
                        (elemInit info segs true) st).1
                      (buildKids cfg
                        { parent := some info, ancestors := info :: cx.ancestors
                          parentIsBody := false, inIframe := cx.inIframe, inShadow := cx.inShadow
                          parentIframe := cx.parentIframe
                          isParentHighlighted :=
                            (elemClassify cfg cx info (forestElemInfos kids)
                              (elemInit info segs true) st).1 }
                        (some segs) (forestElemTags kids) []
                        (elemClassify cfg cx info (forestElemInfos kids)
                          (elemInit info segs true) st).2.2
                        kids).2
                      (ShadowSpec.shadow sKids)
                    exact finish_case h1 h2 m2 h3 m3 hnd

theorem elemIframe_ok (cfg : Config) (info : ElemInfo) (wasH : Bool)
    (st : BuildState) (ifr : IframeSpec) :
    ∃ new, NewOK cfg st (elemIframe cfg info wasH st ifr).2 new ∧
      ∀ i ∈ (elemIframe cfg info wasH st ifr).1, i ∈ mapKeys new := by
  cases ifr with
  | accessThrows =>
      refine ⟨[], ?_, ?_⟩
      · simpa [elemIframe] using NewOK.refl cfg st
      · simp [elemIframe]
  | noDoc =>
      refine ⟨[], ?_, ?_⟩
      · simpa [elemIframe] using NewOK.refl cfg st
      · simp [elemIframe]
  | doc body =>
      obtain ⟨new, h, m⟩ := buildDomTree_ok cfg
        { parent := none, ancestors := [], parentIsBody := false
          inIframe := true, inShadow := false, parentIframe := some info
          isParentHighlighted := wasH }
        ["html", "body"] st body
      simp only [elemIframe]
      split
      · rename_i cid st2 heq
        rw [heq] at h
        refine ⟨new, h, ?_⟩
        intro i hi
        simp only [List.mem_singleton] at hi
        subst hi
        exact m i (by rw [heq])
      · rename_i st2 heq
        rw [heq] at h
        exact ⟨new, h, by simp⟩
theorem elemShadow_ok (cfg : Config) (cx : NodeCtx) (info : ElemInfo)
    (wasH : Bool) (st : BuildState) (sh : ShadowSpec) :
    ∃ new, NewOK cfg st (elemShadow cfg cx info wasH st sh).2 new ∧
      ∀ i ∈ (elemShadow cfg cx info wasH st sh).1, i ∈ mapKeys new := by
  cases sh with
  | noShadow =>
      refine ⟨[], ?_, ?_⟩
      · simpa [elemShadow] using NewOK.refl cfg st
      · simp [elemShadow]
  | shadow sKids =>
      obtain ⟨new, h, m⟩ := buildKids_ok cfg
        { parent := none, ancestors := [], parentIsBody := false
          inIframe := cx.inIframe, inShadow := true
          parentIframe := cx.parentIframe, isParentHighlighted := wasH }
        none (forestElemTags sKids) [] st sKids
      exact ⟨new, h, m⟩
theorem buildKids_ok (cfg : Config) (cx : NodeCtx) (base : Option (List String))
    (allTags seenTags : List String) (st : BuildState) (f : DomForest) :
    ∃ new, NewOK cfg st (buildKids cfg cx base allTags seenTags st f).2 new ∧
      ∀ i ∈ (buildKids cfg cx base allTags seenTags st f).1, i ∈ mapKeys new := by
  cases f with
  | nil =>
      refine ⟨[], ?_, ?_⟩
      · simpa [buildKids] using NewOK.refl cfg st
      · simp [buildKids]
  | cons n rest =>
      simp only [buildKids]
      obtain ⟨nc, hc, mc⟩ := buildDomTree_ok cfg cx
        (childSegs base allTags seenTags n).1 st n
      obtain ⟨nr, hr, mr⟩ := buildKids_ok cfg cx base allTags
        (childSegs base allTags seenTags n).2
        (buildDomTree cfg cx (childSegs base allTags seenTags n).1 st n).2
        rest
      refine ⟨nr ++ nc, hc.trans hr, ?_⟩
      intro i hi
      rw [mapKeys_append]
      rcases hres : (buildDomTree cfg cx (childSegs base allTags seenTags n).1 st n).1 with
        _ | cid
      · rw [hres] at hi
        simp only at hi
        exact List.mem_append.2 (Or.inl (mr i hi))
      · rw [hres] at hi
        simp only [List.mem_cons] at hi
        rcases hi with h | h
        · subst h
          exact List.mem_append.2 (Or.inr (mc i hres))
        · exact List.mem_append.2 (Or.inl (mr i h))
end

theorem mapIndices_cons_none (k : Nat) (nd : NodeData) (m : List (Nat × NodeData))
    (h : nd.highlightIndex = none) : mapIndices ((k, nd) :: m) = mapIndices m := by
  simp [mapIndices, List.filterMap_cons, h]

theorem analyzeCore_ok (cfg : Config) (page : Page) (ui : UIState) :
    (mapKeys (analyzeCore cfg page ui).2.map).Nodup ∧
    (∀ p ∈ (analyzeCore cfg page ui).2.map, ∀ c ∈ p.2.children,
       c < p.1 ∧ c ∈ mapKeys (analyzeCore cfg page ui).2.map) ∧
    (∀ rid, (analyzeCore cfg page ui).1 = some rid →
       ∀ p ∈ (analyzeCore cfg page ui).2.map, p.1 ≤ rid) ∧
    (analyzeCore cfg page ui).2.assigned = List.range (analyzeCore cfg page ui).2.hl ∧
    (∀ i ∈ mapIndices (analyzeCore cfg page ui).2.map, i < (analyzeCore cfg page ui).2.hl) ∧
    (mapIndices (analyzeCore cfg page ui).2.map).Nodup ∧
    (cfg.doHighlightElements = false → (analyzeCore cfg page ui).2.ui = ui) ∧
    (UIinv ui → UIinv (analyzeCore cfg page ui).2.ui) := by
  unfold analyzeCore
  dsimp only
  split
  · refine ⟨by simp [mapKeys], by simp, by simp, by simp, by simp [mapIndices],
      by simp [mapIndices], fun _ => rfl, fun h => h⟩
  · obtain ⟨new, h, m⟩ := buildKids_ok cfg
      { parent := some page.body, ancestors := [page.body], parentIsBody := true
        inIframe := false, inShadow := false, parentIframe := none
        isParentHighlighted := false }
      (some ["html", "body"]) (forestElemTags page.bodyChildren) []
      { nextId := 0, map := [], hl := 0, assigned := [], ui := ui }
      page.bodyChildren
    have hmap : (buildKids cfg
        { parent := some page.body, ancestors := [page.body], parentIsBody := true
          inIframe := false, inShadow := false, parentIframe := none
          isParentHighlighted := false }
        (some ["html", "body"]) (forestElemTags page.bodyChildren) []
        { nextId := 0, map := [], hl := 0, assigned := [], ui := ui }
        page.bodyChildren).2.map = new := by
      have := h.map_eq
      simpa using this
    have hklt : ∀ k ∈ mapKeys new, k < (buildKids cfg
        { parent := some page.body, ancestors := [page.body], parentIsBody := true
          inIframe := false, inShadow := false, parentIframe := none
          isParentHighlighted := false }
        (some ["html", "body"]) (forestElemTags page.bodyChildren) []
        { nextId := 0, map := [], hl := 0, assigned := [], ui := ui }
        page.bodyChildren).2.nextId := by
      intro k hk
      rcases mapKeys_mem.1 hk with ⟨p, hp, hpk⟩
      subst hpk
      exact (h.key_bounds p hp).2
    refine ⟨?_, ?_, ?_, ?_, ?_, ?_, ?_, ?_⟩
    · dsimp only
      simp only [mapKeys, List.map_cons]
      refine List.Nodup.cons ?_ (by rw [hmap]; exact h.key_nodup)
      rw [hmap]
      intro hmem
      exact absurd (hklt _ hmem) (by omega)
    · intro p hp c hc
      dsimp only at hp
      rcases List.mem_cons.1 hp with hb | hb
      · subst hb
        simp only at hc
        refine ⟨hklt c (m c hc), ?_⟩
        simp only [mapKeys, List.map_cons, List.mem_cons]
        exact Or.inr (by rw [hmap]; exact m c hc)
      · have hco := h.child_ok p (by rw [← hmap]; exact hb)
        refine ⟨(hco c hc).1, ?_⟩
        simp only [mapKeys, List.map_cons, List.mem_cons]
        exact Or.inr (by rw [hmap]; exact (hco c hc).2)
    · intro rid hrid p hp
      simp only [Option.some.injEq] at hrid
      subst hrid
      dsimp only at hp
      rcases List.mem_cons.1 hp with hb | hb
      · subst hb
        exact le_refl _
      · exact le_of_lt (hklt p.1 (mapKeys_mem.2 ⟨p, hmap ▸ hb, rfl⟩))
    · dsimp only
      have := h.assigned_eq
      simpa [List.range_eq_range'] using this
    · intro i hi
      dsimp only at hi
      rw [mapIndices_cons_none _ _ _ rfl, hmap] at hi
      exact (h.idx_bounds i hi).2
    · dsimp only
      rw [mapIndices_cons_none _ _ _ rfl, hmap]
      exact h.idx_nodup
    · intro hoff
      exact h.ui_off hoff
    · intro hinv
      exact h.ui_inv hinv

theorem isTopElement_unbounded (cfg : Config) (ii isd : Bool) (e : ElemInfo)
    (h : cfg.viewportExpansion = -1) : isTopElement cfg ii isd e = true := by
  unfold isTopElement
  rw [if_pos h]

theorem isInExpandedViewport_unbounded (cfg : Config) (e : ElemInfo)
    (h : cfg.viewportExpansion = -1) : isInExpandedViewport cfg e = true := by
  unfold isInExpandedViewport
  rw [if_pos h]

theorem handleHighlighting_selects (cfg : Config) (pih : Bool) (e : ElemInfo)
    (kids anc : List ElemInfo) (pib : Bool) (nd : NodeData) (st : BuildState)
    (hint : nd.isInteractive = true)
    (hsel : pih = false ∨ isElementDistinctInteraction e kids anc pib = true)
    (hvp : isInExpandedViewport cfg e = true ∨ cfg.viewportExpansion = -1) :
    (handleHighlighting cfg pih e kids anc pib nd st).2.1.highlightIndex = some st.hl := by
  unfold handleHighlighting
  dsimp only
  repeat' split
  all_goals simp_all

theorem cleanupHighlights_of_clean (x : UIState) (h1 : x.cleanupFns.isEmpty = true)
    (h2 : x.containerPresent = false) : cleanupHighlights x = x := by
  unfold cleanupHighlights
  dsimp only
  rw [if_pos h1]
  cases x
  simp_all

theorem cleanupHighlights_idem (u : UIState) :
    cleanupHighlights (cleanupHighlights u) = cleanupHighlights u :=
  cleanupHighlights_of_clean _ (cleanupHighlights_fns u).1 (cleanupHighlights_fns u).2

theorem highlightElement_draws (i : Nat) (e : ElemInfo) (ui : UIState)
    (h : e.clientRects ≠ []) :
    (highlightElement i e ui).labels = ui.labels + 1 ∧
    (highlightElement i e ui).containerPresent = true ∧
    (highlightElement i e ui).boxes = ui.boxes +
      (e.clientRects.filter (fun r => ¬ (r.width = 0 || r.height = 0))).length ∧
    (highlightElement i e ui).listeners = ui.listeners + 2 := by
  unfold highlightElement
  dsimp only
  rw [if_neg (by simpa [List.isEmpty_iff] using h)]
  exact ⟨rfl, rfl, rfl, rfl⟩

/-- Fixture: a maximally plain computed style. -/
def defStyle : Style :=
  { visibility := "visible", display := "block", cursor := "auto", opacity := "1" }

/-- Fixture: a 10 by 10 box at the viewport origin. -/
def fullRect : Rect :=
  { top := 0, left := 0, bottom := 10, right := 10, width := 10, height := 10 }

/-- Fixture: a degenerate box (as produced by a scale(0) transform). -/
def zeroRect : Rect :=
  { top := 0, left := 0, bottom := 0, right := 0, width := 0, height := 0 }

/-- Fixture: a zero-width, 10-pixel-tall box (zero area, non-zero height). -/
def thinRect : Rect :=
  { top := 0, left := 0, bottom := 10, right := 0, width := 0, height := 10 }

/-- Fixture: an element with the given tag, attributes, offset sizes and
geometry, plain style, no special properties, no introspection APIs. -/
def mkElem (tag : String) (attrs : List (String × String)) (ow oh : Int)
    (cr : List Rect) (br : Rect) : ElemInfo :=
  { tagName := tag, idAttr := "", attributes := attrs, offsetWidth := ow
    offsetHeight := oh, style := defStyle, clientRects := cr, boundingRect := br
    checkVisibilityAPI := some true, disabledProp := false, readOnlyProp := false
    inertProp := false, contentEditableProp := false, handlerProps := []
    devtoolsListeners := APIResult.absent, nodeListeners := APIResult.absent
    hitCenter := HitOutcome.hit true, hitCorner1 := HitOutcome.hit true
    hitCorner2 := HitOutcome.hit true, shadowHit := HitOutcome.hit true }

/-- Fixture: a page whose body holds the given children. -/
def mkPage (kids : DomForest) : Page :=
  { body := mkElem "body" [] 800 600 [fullRect] fullRect, bodyChildren := kids
    innerWidth := 800, innerHeight := 600, url := "u", title := "t", timestamp := "ts" }

/-- Fixture: a fresh window with no overlays and no prior run. -/
def initWorld : World := { ui := emptyUI, cleanupDefined := false, console := [] }

/-- Fixture: settings with unbounded viewport expansion. -/
def unboundedSettings : Settings := { defaultArgs with viewportExpansion := -1 }

/-- Fixture: a span with class "button" (interactive via the class marker,
not distinct-interactive) inside a button. -/
def spanBtnNode : DomNode :=
  DomNode.element (mkElem "span" [("class", "button")] 10 10 [fullRect] fullRect)
    DomForest.nil ShadowSpec.noShadow IframeSpec.noDoc

/-- Fixture: a plain visible button. -/
def btnNode : DomNode :=
  DomNode.element (mkElem "button" [] 10 10 [fullRect] fullRect)
    DomForest.nil ShadowSpec.noShadow IframeSpec.noDoc

/-- Fixture: a button containing the class-marked span. -/
def btnWithSpanNode : DomNode :=
  DomNode.element (mkElem "button" [] 10 10 [fullRect] fullRect)
    (DomForest.cons spanBtnNode DomForest.nil) ShadowSpec.noShadow IframeSpec.noDoc

/-- Fixture: an empty anchor with layout size but a scale(0)-style zero
bounding box and a single zero-size client rect, no href. -/
def scaledAnchorNode : DomNode :=
  DomNode.element (mkElem "a" [] 10 10 [zeroRect] zeroRect)
    DomForest.nil ShadowSpec.noShadow IframeSpec.noDoc

/-- Fixture: an anchor whose bounding box is 0 wide and 10 tall (zero area,
not zero in both dimensions), empty, no href. -/
def thinAnchorNode : DomNode :=
  DomNode.element (mkElem "a" [] 0 10 [thinRect] thinRect)
    DomForest.nil ShadowSpec.noShadow IframeSpec.noDoc

/-- The traversal configuration extracted from the settings and window. -/
def mkCfg (args : Settings) (page : Page) : Config :=
  { doHighlightElements := args.doHighlightElements
    focusHighlightIndex := args.focusHighlightIndex
    viewportExpansion := args.viewportExpansion
    innerWidth := page.innerWidth, innerHeight := page.innerHeight }

/-- Claim C2: in every analysis result, every id appearing in a node record's
children array is a key of the result map, and the map's ids are pairwise
distinct (no dangling references, no duplicate ids). -/
theorem C2_map_closed_nodup (args : Settings) (page : Page) (w : World) :
    (mapKeys (analyzePage args page w).1.map).Nodup ∧
    ∀ p ∈ (analyzePage args page w).1.map, ∀ c ∈ p.2.children,
      c ∈ mapKeys (analyzePage args page w).1.map := by
  have h := analyzeCore_ok (mkCfg args page) page w.ui
  exact ⟨h.1, fun p hp c hc => ((h.2.1) p hp c hc).2⟩

theorem analyzeCore_rootId (cfg : Config) (page : Page) (ui : UIState)
    (h : page.body.idAttr ≠ HIGHLIGHT_CONTAINER_ID) :
    ∃ r, (analyzeCore cfg page ui).1 = some r := by
  unfold analyzeCore
  dsimp only
  rw [if_neg h]
  exact ⟨_, rfl⟩

/-- Claim C10: ids are assigned post-order — every record's id is numerically
greater than every id in its children array, and `rootId` (the body record's
id) is the numerically largest id in the map.  (The source stringifies the
same counter, so numeric comparison on the underlying counter values is the
stated property.) -/
theorem C10_postorder_ids (args : Settings) (page : Page) (w : World)
    (h : page.body.idAttr ≠ HIGHLIGHT_CONTAINER_ID) :
    ∃ r, (analyzePage args page w).1.rootId = some r ∧
      (∀ p ∈ (analyzePage args page w).1.map, p.1 ≤ r) ∧
      (∀ p ∈ (analyzePage args page w).1.map, ∀ c ∈ p.2.children, c < p.1) := by
  have hc := analyzeCore_ok (mkCfg args page) page w.ui
  obtain ⟨r, hr⟩ := analyzeCore_rootId (mkCfg args page) page w.ui h
  refine ⟨r, hr, fun p hp => hc.2.2.1 r hr p hp,
    fun p hp c hcc => ((hc.2.1) p hp c hcc).1⟩

/-- Claim C10 witness at a concrete page. -/
theorem C10_postorder_ids_witness :
    (mkPage (DomForest.cons btnNode DomForest.nil)).body.idAttr ≠ HIGHLIGHT_CONTAINER_ID ∧
    ∃ r, (analyzePage defaultArgs (mkPage (DomForest.cons btnNode DomForest.nil))
        initWorld).1.rootId = some r ∧
      (∀ p ∈ (analyzePage defaultArgs (mkPage (DomForest.cons btnNode DomForest.nil))
          initWorld).1.map, p.1 ≤ r) ∧
      (∀ p ∈ (analyzePage defaultArgs (mkPage (DomForest.cons btnNode DomForest.nil))
          initWorld).1.map, ∀ c ∈ p.2.children, c < p.1) :=
  ⟨by decide, C10_postorder_ids defaultArgs (mkPage (DomForest.cons btnNode DomForest.nil))
    initWorld (by decide)⟩

/-- Claim C1 counterexample: with `viewportExpansion = -1`, a visible
interactive empty anchor whose bounding box is zero (a real layout: a
scale(0)-transformed block anchor keeps `offsetWidth > 0`) is selected and
consumes highlight index 0, but is then dropped by the empty-anchor pruning;
the following button receives index 1.  The output map thus contains
highlightIndex 1 and no highlightIndex 0 — the indices present are not a
contiguous-from-zero sequence, and they do not enumerate the nodes passing
the interactive/top/viewport gates. -/
theorem C1_counterexample :
    mapIndices (analyzePage unboundedSettings
        (mkPage (DomForest.cons scaledAnchorNode (DomForest.cons btnNode DomForest.nil)))
        initWorld).1.map = [1] ∧
    (0 : Nat) ∉ mapIndices (analyzePage unboundedSettings
        (mkPage (DomForest.cons scaledAnchorNode (DomForest.cons btnNode DomForest.nil)))
        initWorld).1.map := by
  constructor
  · rfl
  · decide

/-- Claim C1 (amended): during a run the highlight indices are assigned in
traversal (pre-order) order and are exactly 0, 1, ..., k-1 — the ghost trace
`assigned` equals `List.range` of the final counter; every highlightIndex
present in the output map is one of these assigned values, and no index
occurs on two map entries.  An index may be missing from the map when the
node that consumed it was later dropped by the empty-anchor pruning, so the
indices present form a possibly-gapped subset of the assigned pre-order
sequence rather than always a contiguous-from-zero one; a node passing the
interactive, top and viewport gates receives an index only if it also passes
the nested-highlight decision (no highlighted ancestor, or distinct
interaction). -/
theorem C1_amended_indices (args : Settings) (page : Page) (w : World) :
    (analyzeCore (mkCfg args page) page w.ui).2.assigned =
      List.range (analyzeCore (mkCfg args page) page w.ui).2.hl ∧
    (∀ i ∈ mapIndices (analyzePage args page w).1.map,
       i ∈ (analyzeCore (mkCfg args page) page w.ui).2.assigned) ∧
    (mapIndices (analyzePage args page w).1.map).Nodup := by
  have h := analyzeCore_ok (mkCfg args page) page w.ui
  refine ⟨h.2.2.2.1, ?_, h.2.2.2.2.2.1⟩
  intro i hi
  rw [h.2.2.2.1]
  exact List.mem_range.2 (h.2.2.2.2.1 i hi)

/-- Claim C7: the cleanup entry point is idempotent and safe with or without
a prior analyze call.  After an analyze run started from a page satisfying
the overlay accounting invariant (in particular a fresh page), one cleanup
call removes every overlay box and label, detaches every registered
scroll/resize listener, empties the cleanup registry and removes the
container — the pristine `emptyUI` state; a second consecutive call (and a
call with no prior analyze at all) is a no-op. -/
theorem C7_cleanup_idempotent (args : Settings) (page : Page) (w : World)
    (h : UIinv w.ui) :
    cleanupHighlights (analyzePage args page w).2.ui = emptyUI ∧
    (∀ u : UIState, cleanupHighlights (cleanupHighlights u) = cleanupHighlights u) ∧
    cleanupHighlights emptyUI = emptyUI := by
  refine ⟨?_, cleanupHighlights_idem, ?_⟩
  · exact cleanupHighlights_clears _ ((analyzeCore_ok (mkCfg args page) page w.ui).2.2.2.2.2.2.2 h)
  · exact cleanupHighlights_of_clean emptyUI rfl rfl

/-- Claim C7 witness: a concrete run from a fresh page. -/
theorem C7_cleanup_idempotent_witness :
    UIinv initWorld.ui ∧
    (cleanupHighlights (analyzePage defaultArgs (mkPage (DomForest.cons btnNode DomForest.nil))
        initWorld).2.ui = emptyUI ∧
     (∀ u : UIState, cleanupHighlights (cleanupHighlights u) = cleanupHighlights u) ∧
     cleanupHighlights emptyUI = emptyUI) :=
  ⟨⟨rfl, rfl, rfl⟩, C7_cleanup_idempotent defaultArgs
    (mkPage (DomForest.cons btnNode DomForest.nil)) initWorld ⟨rfl, rfl, rfl⟩⟩

/-- Claim C4: for a node already classified interactive (and called with the
node's top/interactive precondition in `buildDomTree`), `handleHighlighting`
assigns a highlight index exactly when the selection decision holds — always
when no ancestor was highlighted, and when an ancestor was highlighted if and
only if `isElementDistinctInteraction` holds — and the node additionally
passes the viewport gate (in viewport, or unbounded expansion). -/
theorem C4_highlight_decision (cfg : Config) (pih : Bool) (e : ElemInfo)
    (kids anc : List ElemInfo) (pib : Bool) (nd : NodeData) (st : BuildState)
    (hint : nd.isInteractive = true) (hidx : nd.highlightIndex = none) :
    (handleHighlighting cfg pih e kids anc pib nd st).2.1.highlightIndex.isSome = true ↔
      ((pih = false ∨ isElementDistinctInteraction e kids anc pib = true) ∧
       (isInExpandedViewport cfg e = true ∨ cfg.viewportExpansion = -1)) := by
  unfold handleHighlighting
  dsimp only
  repeat' split
  all_goals simp_all

/-- Claim C4 witness. -/
theorem C4_highlight_decision_witness :
    (handleHighlighting (mkCfg defaultArgs (mkPage DomForest.nil)) false
        (mkElem "button" [] 10 10 [fullRect] fullRect) [] [] false
        { tagName := "button", attributes := [], xpath := "", children := []
          text := none, isVisible := true, isTopElement := true, isInteractive := true
          isInViewport := false, shadowRoot := false, highlightIndex := none }
        { nextId := 0, map := [], hl := 0, assigned := [], ui := emptyUI }
      ).2.1.highlightIndex.isSome = true ↔
      ((false = false ∨ isElementDistinctInteraction
          (mkElem "button" [] 10 10 [fullRect] fullRect) [] [] false = true) ∧
       (isInExpandedViewport (mkCfg defaultArgs (mkPage DomForest.nil))
          (mkElem "button" [] 10 10 [fullRect] fullRect) = true ∨
        (mkCfg defaultArgs (mkPage DomForest.nil)).viewportExpansion = -1)) :=
  C4_highlight_decision (mkCfg defaultArgs (mkPage DomForest.nil)) false
    (mkElem "button" [] 10 10 [fullRect] fullRect) [] [] false
    { tagName := "button", attributes := [], xpath := "", children := []
      text := none, isVisible := true, isTopElement := true, isInteractive := true
      isInViewport := false, shadowRoot := false, highlightIndex := none }
    { nextId := 0, map := [], hl := 0, assigned := [], ui := emptyUI }
    rfl rfl

/-- Claim C5: with `doHighlightElements = false` a run changes nothing in the
overlay/UI state — no container, boxes, labels or listeners are created —
while index assignment still runs: a selected interactive node passing the
viewport gate still receives the next highlight index and advances the
counter, with the UI untouched; with rendering enabled and no focus
filter, every node that the highlighter selects and that has at least one
client rect gets an overlay drawn (its label is created and the container is
present, plus one box per non-empty client rect); with a focus filter set,
a node whose index differs from the focus index gets no overlay at all. -/
theorem C5_overlay_rendering :
    (∀ (args : Settings) (page : Page) (w : World),
       args.doHighlightElements = false → (analyzePage args page w).2.ui = w.ui) ∧
    (∀ (cfg : Config) (pih : Bool) (e : ElemInfo) (kids anc : List ElemInfo)
       (pib : Bool) (nd : NodeData) (st : BuildState),
       nd.isInteractive = true →
       (pih = false ∨ isElementDistinctInteraction e kids anc pib = true) →
       (isInExpandedViewport cfg e = true ∨ cfg.viewportExpansion = -1) →
       cfg.doHighlightElements = false →
       (handleHighlighting cfg pih e kids anc pib nd st).2.1.highlightIndex = some st.hl ∧
       (handleHighlighting cfg pih e kids anc pib nd st).2.2.hl = st.hl + 1 ∧
       (handleHighlighting cfg pih e kids anc pib nd st).2.2.ui = st.ui) ∧
    (∀ (cfg : Config) (pih : Bool) (e : ElemInfo) (kids anc : List ElemInfo)
       (pib : Bool) (nd : NodeData) (st : BuildState),
       nd.isInteractive = true →
       (pih = false ∨ isElementDistinctInteraction e kids anc pib = true) →
       (isInExpandedViewport cfg e = true ∨ cfg.viewportExpansion = -1) →
       cfg.doHighlightElements = true → cfg.focusHighlightIndex < 0 →
       e.clientRects ≠ [] →
       (handleHighlighting cfg pih e kids anc pib nd st).2.1.highlightIndex = some st.hl ∧
       (handleHighlighting cfg pih e kids anc pib nd st).2.2.ui.labels = st.ui.labels + 1 ∧
       (handleHighlighting cfg pih e kids anc pib nd st).2.2.ui.containerPresent = true ∧
       (handleHighlighting cfg pih e kids anc pib nd st).2.2.ui.boxes = st.ui.boxes +
         (e.clientRects.filter (fun r => ¬ (r.width = 0 || r.height = 0))).length) ∧
    (∀ (cfg : Config) (pih : Bool) (e : ElemInfo) (kids anc : List ElemInfo)
       (pib : Bool) (nd : NodeData) (st : BuildState),
       cfg.focusHighlightIndex ≥ 0 → cfg.focusHighlightIndex ≠ (st.hl : Int) →
       (handleHighlighting cfg pih e kids anc pib nd st).2.2.ui = st.ui) := by
  refine ⟨?_, ?_, ?_, ?_⟩
  · intro args page w hoff
    exact (analyzeCore_ok (mkCfg args page) page w.ui).2.2.2.2.2.2.1 hoff
  · intro cfg pih e kids anc pib nd st hint hsel hvp hoff
    unfold handleHighlighting
    dsimp only
    repeat' split
    all_goals simp_all
  · intro cfg pih e kids anc pib nd st hint hsel hvp hon hfoc hrects
    have hdraw := highlightElement_draws st.hl e st.ui hrects
    unfold handleHighlighting
    dsimp only
    repeat' split
    all_goals simp_all
    all_goals omega
  · intro cfg pih e kids anc pib nd st hfoc hne
    unfold handleHighlighting
    dsimp only
    repeat' split
    all_goals simp_all

/-- Claim C5 witness: rendering off leaves the world's UI untouched by a full
run, yet a selected button still receives index 0 and advances the counter;
with rendering on the same button gets its label, container and one box. -/
theorem C5_overlay_rendering_witness :
    (({ defaultArgs with doHighlightElements := false } : Settings).doHighlightElements = false ∧
     (analyzePage { defaultArgs with doHighlightElements := false }
       (mkPage (DomForest.cons btnNode DomForest.nil)) initWorld).2.ui = initWorld.ui) ∧
    ((handleHighlighting
        (mkCfg { defaultArgs with doHighlightElements := false } (mkPage DomForest.nil)) false
        (mkElem "button" [] 10 10 [fullRect] fullRect) [] [] false
        { tagName := "button", attributes := [], xpath := "", children := []
          text := none, isVisible := true, isTopElement := true, isInteractive := true
          isInViewport := false, shadowRoot := false, highlightIndex := none }
        { nextId := 0, map := [], hl := 0, assigned := [], ui := emptyUI }
      ).2.1.highlightIndex = some 0 ∧
     (handleHighlighting
        (mkCfg { defaultArgs with doHighlightElements := false } (mkPage DomForest.nil)) false
        (mkElem "button" [] 10 10 [fullRect] fullRect) [] [] false
        { tagName := "button", attributes := [], xpath := "", children := []
          text := none, isVisible := true, isTopElement := true, isInteractive := true
          isInViewport := false, shadowRoot := false, highlightIndex := none }
        { nextId := 0, map := [], hl := 0, assigned := [], ui := emptyUI }
      ).2.2.hl = 0 + 1 ∧
     (handleHighlighting
        (mkCfg { defaultArgs with doHighlightElements := false } (mkPage DomForest.nil)) false
        (mkElem "button" [] 10 10 [fullRect] fullRect) [] [] false
        { tagName := "button", attributes := [], xpath := "", children := []
          text := none, isVisible := true, isTopElement := true, isInteractive := true
          isInViewport := false, shadowRoot := false, highlightIndex := none }
        { nextId := 0, map := [], hl := 0, assigned := [], ui := emptyUI }
      ).2.2.ui = emptyUI) ∧
    ((handleHighlighting (mkCfg defaultArgs (mkPage DomForest.nil)) false
        (mkElem "button" [] 10 10 [fullRect] fullRect) [] [] false
        { tagName := "button", attributes := [], xpath := "", children := []
          text := none, isVisible := true, isTopElement := true, isInteractive := true
          isInViewport := false, shadowRoot := false, highlightIndex := none }
        { nextId := 0, map := [], hl := 0, assigned := [], ui := emptyUI }
      ).2.1.highlightIndex = some 0 ∧
     (handleHighlighting (mkCfg defaultArgs (mkPage DomForest.nil)) false
        (mkElem "button" [] 10 10 [fullRect] fullRect) [] [] false
        { tagName := "button", attributes := [], xpath := "", children := []
          text := none, isVisible := true, isTopElement := true, isInteractive := true
          isInViewport := false, shadowRoot := false, highlightIndex := none }
        { nextId := 0, map := [], hl := 0, assigned := [], ui := emptyUI }
      ).2.2.ui.labels = emptyUI.labels + 1 ∧
     (handleHighlighting (mkCfg defaultArgs (mkPage DomForest.nil)) false
        (mkElem "button" [] 10 10 [fullRect] fullRect) [] [] false
        { tagName := "button", attributes := [], xpath := "", children := []
          text := none, isVisible := true, isTopElement := true, isInteractive := true
          isInViewport := false, shadowRoot := false, highlightIndex := none }
        { nextId := 0, map := [], hl := 0, assigned := [], ui := emptyUI }
      ).2.2.ui.containerPresent = true ∧
     (handleHighlighting (mkCfg defaultArgs (mkPage DomForest.nil)) false
        (mkElem "button" [] 10 10 [fullRect] fullRect) [] [] false
        { tagName := "button", attributes := [], xpath := "", children := []
          text := none, isVisible := true, isTopElement := true, isInteractive := true
          isInViewport := false, shadowRoot := false, highlightIndex := none }
        { nextId := 0, map := [], hl := 0, assigned := [], ui := emptyUI }
      ).2.2.ui.boxes = emptyUI.boxes +
        ([fullRect].filter (fun r => ¬ (r.width = 0 || r.height = 0))).length) :=
  ⟨⟨rfl, C5_overlay_rendering.1 { defaultArgs with doHighlightElements := false }
     (mkPage (DomForest.cons btnNode DomForest.nil)) initWorld rfl⟩,
   C5_overlay_rendering.2.1
     (mkCfg { defaultArgs with doHighlightElements := false } (mkPage DomForest.nil)) false
     (mkElem "button" [] 10 10 [fullRect] fullRect) [] [] false
     { tagName := "button", attributes := [], xpath := "", children := []
       text := none, isVisible := true, isTopElement := true, isInteractive := true
       isInViewport := false, shadowRoot := false, highlightIndex := none }
     { nextId := 0, map := [], hl := 0, assigned := [], ui := emptyUI }
     rfl (Or.inl rfl) (Or.inl (by decide)) rfl,
   C5_overlay_rendering.2.2.1 (mkCfg defaultArgs (mkPage DomForest.nil)) false
     (mkElem "button" [] 10 10 [fullRect] fullRect) [] [] false
     { tagName := "button", attributes := [], xpath := "", children := []
       text := none, isVisible := true, isTopElement := true, isInteractive := true
       isInViewport := false, shadowRoot := false, highlightIndex := none }
     { nextId := 0, map := [], hl := 0, assigned := [], ui := emptyUI }
     rfl (Or.inl rfl) (Or.inl (by decide)) rfl (by decide) (by decide)⟩

theorem elemClassify_selects (cfg : Config) (cx : NodeCtx) (info : ElemInfo)
    (ki : List ElemInfo) (nd0 : NodeData) (st : BuildState)
    (hvis : isElementVisible info = true)
    (hint : isInteractiveElement info = true)
    (htop : isTopElement cfg cx.inIframe cx.inShadow info = true)
    (hsel : cx.isParentHighlighted = false ∨
      isElementDistinctInteraction info ki cx.ancestors cx.parentIsBody = true)
    (hvp : isInExpandedViewport cfg info = true ∨ cfg.viewportExpansion = -1) :
    (elemClassify cfg cx info ki nd0 st).2.1.highlightIndex = some st.hl := by
  unfold elemClassify
  rw [if_pos hvis]
  dsimp only
  rw [hint, htop]
  simp only [Bool.and_self, if_pos]
  exact handleHighlighting_selects cfg cx.isParentHighlighted info ki cx.ancestors
    cx.parentIsBody _ st (by simp [hint]) hsel hvp

/-- Claim C3 counterexample: with `viewportExpansion = -1`, the span with
class "button" inside a highlighted button is classified interactive but
receives no highlight index (its highlighted ancestor plus failing the
distinct-interaction test excludes it) — so not every interactive element in
the document receives an index under unbounded expansion. -/
theorem C3_counterexample :
    unboundedSettings.viewportExpansion = -1 ∧
    ∃ p ∈ (analyzePage unboundedSettings
        (mkPage (DomForest.cons btnWithSpanNode DomForest.nil)) initWorld).1.map,
      p.2.isInteractive = true ∧ p.2.highlightIndex = none ∧ p.2.tagName = "span" := by
  exact ⟨rfl, by decide⟩

/-- Claim C3 (amended): with `viewportExpansion = -1`, every accepted,
visible, interactive element that the highlight decision selects (no
highlighted ancestor, or a distinct interaction) receives a highlight index
regardless of its screen position — the top-element and viewport gates never
exclude anything at -1 — provided the node is not an empty-anchor-pruning
candidate (an `a` element with no truthy href attribute whose bounding box
has width and height both zero); in particular every selected anchor with a
truthy href, or with a nonzero bounding-box dimension, is covered.  Nested
non-distinct interactive elements inside a highlighted ancestor, and
highlighted-then-pruned empty anchors, do not end up with an index in the
map. -/
theorem C3_amended_unbounded (cfg : Config) (cx : NodeCtx) (segs : List String)
    (st : BuildState) (info : ElemInfo) (kids : DomForest) (sh : ShadowSpec)
    (ifr : IframeSpec)
    (hexp : cfg.viewportExpansion = -1)
    (hid : info.idAttr ≠ HIGHLIGHT_CONTAINER_ID)
    (hacc : isElementAccepted info = true)
    (hvis : isElementVisible info = true)
    (hint : isInteractiveElement info = true)
    (hsel : cx.isParentHighlighted = false ∨
      isElementDistinctInteraction info (forestElemInfos kids) cx.ancestors
        cx.parentIsBody = true)
    (hnoPrune : ¬ (strToLower info.tagName = "a" ∧
      attrTruthy info.attributes "href" = false ∧
      info.boundingRect.width = 0 ∧ info.boundingRect.height = 0)) :
    ∃ i nd rest stF,
      buildDomTree cfg cx segs st (DomNode.element info kids sh ifr) = (some i, stF) ∧
      stF.map = (i, nd) :: rest ∧ nd.highlightIndex = some st.hl := by
  cases sh with
  | noShadow =>
      have hidx := elemClassify_selects cfg cx info (forestElemInfos kids)
        (elemInit info segs false) st
        hvis hint (isTopElement_unbounded cfg cx.inIframe cx.inShadow info hexp) hsel
        (Or.inr hexp)
      have htag := elemClassify_nd cfg cx info (forestElemInfos kids)
        (elemInit info segs false) st
      simp only [buildDomTree]
      rw [if_neg hid]
      rw [if_neg (by simp [hacc])]
      rw [if_neg (by rw [hexp]; simp)]
      unfold elemFinish
      rw [if_neg (by
        intro hcond
        simp only [Bool.and_eq_true, decide_eq_true_eq] at hcond
        have hA : strToLower info.tagName = "a" := by
          have h0 := hcond.1.1.1.1
          rw [htag.2.1] at h0
          exact h0
        have hcand : isInteractiveCandidate info = true := by
          unfold isInteractiveCandidate
          rw [hA]
          simp [candidateTags]
        have hattrs : (elemInit info segs false).attributes = info.attributes := by
          unfold elemInit
          dsimp only
          rw [if_pos (by rw [hcand]; simp)]
        have hH := hcond.1.1.2
        rw [htag.2.2, hattrs] at hH
        have hF : attrTruthy info.attributes "href" = false := by
          cases hv : attrTruthy info.attributes "href"
          · rfl
          · exact absurd hv hH
        exact hnoPrune ⟨hA, hF, hcond.1.2, hcond.2⟩)]
      exact ⟨_, _, _, _, rfl, rfl, hidx⟩
  | shadow sKids =>
      have hidx := elemClassify_selects cfg cx info (forestElemInfos kids)
        (elemInit info segs true) st
        hvis hint (isTopElement_unbounded cfg cx.inIframe cx.inShadow info hexp) hsel
        (Or.inr hexp)
      have htag := elemClassify_nd cfg cx info (forestElemInfos kids)
        (elemInit info segs true) st
      simp only [buildDomTree]
      rw [if_neg hid]
      rw [if_neg (by simp [hacc])]
      rw [if_neg (by rw [hexp]; simp)]
      unfold elemFinish
      rw [if_neg (by
        intro hcond
        simp only [Bool.and_eq_true, decide_eq_true_eq] at hcond
        have hA : strToLower info.tagName = "a" := by
          have h0 := hcond.1.1.1.1
          rw [htag.2.1] at h0
          exact h0
        have hcand : isInteractiveCandidate info = true := by
          unfold isInteractiveCandidate
          rw [hA]
          simp [candidateTags]
        have hattrs : (elemInit info segs true).attributes = info.attributes := by
          unfold elemInit
          dsimp only
          rw [if_pos (by rw [hcand]; simp)]
        have hH := hcond.1.1.2
        rw [htag.2.2, hattrs] at hH
        have hF : attrTruthy info.attributes "href" = false := by
          cases hv : attrTruthy info.attributes "href"
          · rfl
          · exact absurd hv hH
        exact hnoPrune ⟨hA, hF, hcond.1.2, hcond.2⟩)]
      exact ⟨_, _, _, _, rfl, rfl, hidx⟩

/-- Claim C3 witness: a plain button with unbounded expansion, no highlighted
ancestor. -/
theorem C3_amended_unbounded_witness :
    (mkCfg unboundedSettings (mkPage DomForest.nil)).viewportExpansion = -1 ∧
    ∃ i nd rest stF,
      buildDomTree (mkCfg unboundedSettings (mkPage DomForest.nil))
        { parent := none, ancestors := [], parentIsBody := false, inIframe := false
          inShadow := false, parentIframe := none, isParentHighlighted := false }
        [] { nextId := 0, map := [], hl := 0, assigned := [], ui := emptyUI }
        (DomNode.element (mkElem "button" [] 10 10 [fullRect] fullRect)
          DomForest.nil ShadowSpec.noShadow IframeSpec.noDoc) = (some i, stF) ∧
      stF.map = (i, nd) :: rest ∧
      nd.highlightIndex =
        some ({ nextId := 0, map := [], hl := 0, assigned := [], ui := emptyUI } : BuildState).hl :=
  ⟨rfl, C3_amended_unbounded (mkCfg unboundedSettings (mkPage DomForest.nil))
    { parent := none, ancestors := [], parentIsBody := false, inIframe := false
      inShadow := false, parentIframe := none, isParentHighlighted := false }
    [] { nextId := 0, map := [], hl := 0, assigned := [], ui := emptyUI }
    (mkElem "button" [] 10 10 [fullRect] fullRect) DomForest.nil ShadowSpec.noShadow
    IframeSpec.noDoc rfl (by decide) (by decide) (by decide) (by decide)
    (Or.inl rfl) (by decide)⟩

/-- Claim C6 counterexample: an empty `a` with no children, no href, and a 0
by 10 bounding box — zero area, but not zero in both dimensions.  Run with
default settings it is NOT dropped: its record is present in the output map.
The source prunes only when width and height are both exactly zero. -/
theorem C6_counterexample :
    (mkElem "a" [] 0 10 [thinRect] thinRect).boundingRect.width *
      (mkElem "a" [] 0 10 [thinRect] thinRect).boundingRect.height = 0 ∧
    ∃ p ∈ (analyzePage defaultArgs
        (mkPage (DomForest.cons thinAnchorNode DomForest.nil)) initWorld).1.map,
      p.2.tagName = "a" ∧ p.2.children = [] ∧
      attrTruthy p.2.attributes "href" = false := by
  exact ⟨by decide, by decide⟩


/-- A pruned `elemFinish` call (null result) had an empty id list and left the
state exactly as given. -/
theorem elemFinish_none_emp (info : ElemInfo) (nd1 : NodeData) (ids : List Nat)
    (st3 : BuildState) (h : (elemFinish info nd1 ids st3).1 = none) :
    ids = [] ∧ (elemFinish info nd1 ids st3).2 = st3 := by
  unfold elemFinish at h ⊢
  split at h
  · rename_i hc
    rw [if_pos hc]
    refine ⟨?_, rfl⟩
    simp only [Bool.and_eq_true, decide_eq_true_eq] at hc
    have hie := hc.1.1.1.2
    cases ids with
    | nil => rfl
    | cons a l => simp at hie
  · simp at h

mutual
/-- A dropped (null-returning) node inserted nothing into the flat map: in
the source, `DOM_HASH_MAP` is written only on the success path of
`buildDomTree`, and a node that returns null had every descendant return
null too. -/
theorem buildDomTree_none (cfg : Config) (cx : NodeCtx) (segs : List String)
    (st : BuildState) (n : DomNode)
    (h : (buildDomTree cfg cx segs st n).1 = none) :
    (buildDomTree cfg cx segs st n).2.map = st.map := by
  cases n with
  | other => rfl
  | textNode content rrects =>
      simp only [buildDomTree] at h ⊢
      split
      · rfl
      · split
        · rfl
        · split
          · rfl
          · simp_all
  | element info kids sh ifr =>
      cases sh with
      | noShadow =>
          simp only [buildDomTree] at h ⊢
          split
          · rfl
          · split
            · rfl
            · split
              · rfl
              · split
                · rename_i hA hB hC hD
                  rw [if_neg hA, if_neg hB, if_neg hC, if_pos hD] at h
                  obtain ⟨hemp, heq⟩ := elemFinish_none_emp _ _ _ _ h
                  rw [heq]
                  obtain ⟨hk, hs⟩ := List.append_eq_nil.mp hemp
                  rw [elemShadow_none _ _ _ _ _ _ hs]
                  exact (elemClassify_state _ _ _ _ _ _).1
                · split
                  · rename_i hA hB hC hD hE
                    rw [if_neg hA, if_neg hB, if_neg hC, if_neg hD, if_pos hE] at h
                    obtain ⟨hemp, heq⟩ := elemFinish_none_emp _ _ _ _ h
                    rw [heq]
                    obtain ⟨hk, hs⟩ := List.append_eq_nil.mp hemp
                    rw [elemShadow_none _ _ _ _ _ _ hs]
                    rw [elemIframe_none _ _ _ _ _ hk]
                    exact (elemClassify_state _ _ _ _ _ _).1
                  · rename_i hA hB hC hD hE
                    rw [if_neg hA, if_neg hB, if_neg hC, if_neg hD, if_neg hE] at h
                    obtain ⟨hemp, heq⟩ := elemFinish_none_emp _ _ _ _ h
                    rw [heq]
                    obtain ⟨hk, hs⟩ := List.append_eq_nil.mp hemp
                    rw [elemShadow_none _ _ _ _ _ _ hs]
                    rw [buildKids_none _ _ _ _ _ _ _ hk]
                    exact (elemClassify_state _ _ _ _ _ _).1
      | shadow sKids =>
          simp only [buildDomTree] at h ⊢
          split
          · rfl
          · split
            · rfl
            · split
              · rfl
              · split
                · rename_i hA hB hC hD
                  rw [if_neg hA, if_neg hB, if_neg hC, if_pos hD] at h
                  obtain ⟨hemp, heq⟩ := elemFinish_none_emp _ _ _ _ h
                  rw [heq]
                  obtain ⟨hk, hs⟩ := List.append_eq_nil.mp hemp
                  rw [elemShadow_none _ _ _ _ _ _ hs]
                  exact (elemClassify_state _ _ _ _ _ _).1
                · split
                  · rename_i hA hB hC hD hE
                    rw [if_neg hA, if_neg hB, if_neg hC, if_neg hD, if_pos hE] at h
                    obtain ⟨hemp, heq⟩ := elemFinish_none_emp _ _ _ _ h
                    rw [heq]
                    obtain ⟨hk, hs⟩ := List.append_eq_nil.mp hemp
                    rw [elemShadow_none _ _ _ _ _ _ hs]
                    rw [elemIframe_none _ _ _ _ _ hk]
                    exact (elemClassify_state _ _ _ _ _ _).1
                  · rename_i hA hB hC hD hE
                    rw [if_neg hA, if_neg hB, if_neg hC, if_neg hD, if_neg hE] at h
                    obtain ⟨hemp, heq⟩ := elemFinish_none_emp _ _ _ _ h
                    rw [heq]
                    obtain ⟨hk, hs⟩ := List.append_eq_nil.mp hemp
                    rw [elemShadow_none _ _ _ _ _ _ hs]
                    rw [buildKids_none _ _ _ _ _ _ _ hk]
                    exact (elemClassify_state _ _ _ _ _ _).1
/-- An iframe whose content contributed no child id left the map untouched. -/
theorem elemIframe_none (cfg : Config) (info : ElemInfo) (wasH : Bool)
    (st : BuildState) (ifr : IframeSpec)
    (h : (elemIframe cfg info wasH st ifr).1 = []) :
    (elemIframe cfg info wasH st ifr).2.map = st.map := by
  cases ifr with
  | accessThrows => rfl
  | noDoc => rfl
  | doc body =>
      simp only [elemIframe] at h ⊢
      split
      · rename_i cid st2 heq
        rw [heq] at h
        simp at h
      · rename_i st2 heq
        have hm := buildDomTree_none cfg
          { parent := none, ancestors := [], parentIsBody := false
            inIframe := true, inShadow := false, parentIframe := some info
            isParentHighlighted := wasH }
          ["html", "body"] st body (by rw [heq])
        rw [heq] at hm
        exact hm
/-- A shadow root whose children all dropped left the map untouched. -/
theorem elemShadow_none (cfg : Config) (cx : NodeCtx) (info : ElemInfo)
    (wasH : Bool) (st : BuildState) (sh : ShadowSpec)
    (h : (elemShadow cfg cx info wasH st sh).1 = []) :
    (elemShadow cfg cx info wasH st sh).2.map = st.map := by
  cases sh with
  | noShadow => rfl
  | shadow sKids =>
      exact buildKids_none cfg
        { parent := none, ancestors := [], parentIsBody := false
          inIframe := cx.inIframe, inShadow := true
          parentIframe := cx.parentIframe, isParentHighlighted := wasH }
        none (forestElemTags sKids) [] st sKids h
/-- A child loop that collected no ids inserted nothing into the map. -/
theorem buildKids_none (cfg : Config) (cx : NodeCtx) (base : Option (List String))
    (allTags seenTags : List String) (st : BuildState) (f : DomForest)
    (h : (buildKids cfg cx base allTags seenTags st f).1 = []) :
    (buildKids cfg cx base allTags seenTags st f).2.map = st.map := by
  cases f with
  | nil => rfl
  | cons n rest =>
      simp only [buildKids] at h ⊢
      rcases hres : (buildDomTree cfg cx (childSegs base allTags seenTags n).1 st n).1 with
        _ | cid
      · rw [hres] at h
        simp only at h
        have h1 := buildDomTree_none cfg cx (childSegs base allTags seenTags n).1 st n hres
        have h2 := buildKids_none cfg cx base allTags
          (childSegs base allTags seenTags n).2
          (buildDomTree cfg cx (childSegs base allTags seenTags n).1 st n).2 rest h
        rw [h2, h1]
      · rw [hres] at h
        simp at h
end

/-- `elemFinish` on a zero-by-zero, no-href anchor record: either the
collected child ids are empty and the node is pruned (null result, state as
given), or it is inserted with its nonempty children list. -/
theorem elemFinish_anchor (info : ElemInfo) (nd1 : NodeData) (ids : List Nat)
    (st3 : BuildState)
    (htg : nd1.tagName = "a")
    (hhf : attrTruthy nd1.attributes "href" = false)
    (hw : info.boundingRect.width = 0) (hh : info.boundingRect.height = 0) :
    ((elemFinish info nd1 ids st3).1 = none ∧ ids = [] ∧
     (elemFinish info nd1 ids st3).2 = st3) ∨
    ((elemFinish info nd1 ids st3).1 = some st3.nextId ∧
     (elemFinish info nd1 ids st3).2.map =
       (st3.nextId, { nd1 with children := ids }) :: st3.map ∧
     ids ≠ []) := by
  unfold elemFinish
  cases ids with
  | nil =>
      rw [if_pos (by simp [htg, hhf, hw, hh])]
      exact Or.inl ⟨rfl, rfl, rfl⟩
  | cons a l =>
      rw [if_neg (by simp)]
      exact Or.inr ⟨rfl, rfl, by simp⟩

/-- Claim C6 (amended): an `a` element with no truthy href attribute and a
bounding box whose width AND height are both zero is never emitted with an
empty children array: whatever its subtree, either every descendant was
dropped and then the anchor itself is pruned — `buildDomTree` returns null
and the output map is exactly as before — or it is emitted with a nonempty
children list. -/
theorem C6_amended_anchor_pruned (cfg : Config) (cx : NodeCtx) (segs : List String)
    (st : BuildState) (info : ElemInfo) (kids : DomForest) (sh : ShadowSpec)
    (ifr : IframeSpec)
    (htag : strToLower info.tagName = "a")
    (hhref : attrTruthy info.attributes "href" = false)
    (hw : info.boundingRect.width = 0) (hh : info.boundingRect.height = 0) :
    ((buildDomTree cfg cx segs st (DomNode.element info kids sh ifr)).1 = none ∧
     (buildDomTree cfg cx segs st (DomNode.element info kids sh ifr)).2.map = st.map) ∨
    (∃ i nd rest,
      (buildDomTree cfg cx segs st (DomNode.element info kids sh ifr)).1 = some i ∧
      (buildDomTree cfg cx segs st (DomNode.element info kids sh ifr)).2.map =
        (i, nd) :: rest ∧ nd.children ≠ []) := by
  cases sh with
  | noShadow =>
      have hne : info.tagName ≠ "" := by
        intro h0
        rw [h0] at htag
        exact absurd htag (by decide)
      have hcand : isInteractiveCandidate info = true := by
        unfold isInteractiveCandidate
        rw [htag]
        simp [candidateTags]
      have hattrs : (elemInit info segs false).attributes = info.attributes := by
        unfold elemInit
        dsimp only
        rw [if_pos (by rw [hcand]; simp)]
      have htagnd := elemClassify_nd cfg cx info (forestElemInfos kids)
        (elemInit info segs false) st
      simp only [buildDomTree]
      split
      · exact Or.inl ⟨rfl, rfl⟩
      · split
        · exact Or.inl ⟨rfl, rfl⟩
        · split
          · exact Or.inl ⟨rfl, rfl⟩
          · have hif : ¬ (strToLower info.tagName = "iframe") := by rw [htag]; decide
            rw [if_neg hif]
            rcases elemFinish_anchor info
                (elemClassify cfg cx info (forestElemInfos kids)
                    (elemInit info segs false) st).2.1
                ((buildKids cfg
                    { parent := some info, ancestors := info :: cx.ancestors
                      parentIsBody := false, inIframe := cx.inIframe, inShadow := cx.inShadow
                      parentIframe := cx.parentIframe
                      isParentHighlighted :=
                        (elemClassify cfg cx info (forestElemInfos kids)
                            (elemInit info segs false) st).1 }
                    (some segs) (forestElemTags kids) []
                    (elemClassify cfg cx info (forestElemInfos kids)
                        (elemInit info segs false) st).2.2 kids).1 ++
                  (elemShadow cfg cx info
                      (elemClassify cfg cx info (forestElemInfos kids)
                          (elemInit info segs false) st).1
                      (buildKids cfg
                          { parent := some info, ancestors := info :: cx.ancestors
                            parentIsBody := false, inIframe := cx.inIframe, inShadow := cx.inShadow
                            parentIframe := cx.parentIframe
                            isParentHighlighted :=
                              (elemClassify cfg cx info (forestElemInfos kids)
                                  (elemInit info segs false) st).1 }
                          (some segs) (forestElemTags kids) []
                          (elemClassify cfg cx info (forestElemInfos kids)
                              (elemInit info segs false) st).2.2 kids).2
                      ShadowSpec.noShadow).1)
                (elemShadow cfg cx info
                    (elemClassify cfg cx info (forestElemInfos kids)
                        (elemInit info segs false) st).1
                    (buildKids cfg
                        { parent := some info, ancestors := info :: cx.ancestors
                          parentIsBody := false, inIframe := cx.inIframe, inShadow := cx.inShadow
                          parentIframe := cx.parentIframe
                          isParentHighlighted :=
                            (elemClassify cfg cx info (forestElemInfos kids)
                                (elemInit info segs false) st).1 }
                        (some segs) (forestElemTags kids) []
                        (elemClassify cfg cx info (forestElemInfos kids)
                            (elemInit info segs false) st).2.2 kids).2
                    ShadowSpec.noShadow).2
                (by rw [htagnd.2.1]; exact htag)
                (by rw [htagnd.2.2, hattrs]; exact hhref) hw hh with
              ⟨h1, hemp, h2⟩ | ⟨h1, h2, h3⟩
            · refine Or.inl ⟨h1, ?_⟩
              rw [h2]
              obtain ⟨hk, hs⟩ := List.append_eq_nil.mp hemp
              rw [elemShadow_none _ _ _ _ _ _ hs]
              rw [buildKids_none _ _ _ _ _ _ _ hk]
              exact (elemClassify_state _ _ _ _ _ _).1
            · exact Or.inr ⟨_, _, _, h1, h2, h3⟩
  | shadow sKids =>
      have hne : info.tagName ≠ "" := by
        intro h0
        rw [h0] at htag
        exact absurd htag (by decide)
      have hcand : isInteractiveCandidate info = true := by
        unfold isInteractiveCandidate
        rw [htag]
        simp [candidateTags]
      have hattrs : (elemInit info segs true).attributes = info.attributes := by
        unfold elemInit
        dsimp only
        rw [if_pos (by rw [hcand]; simp)]
      have htagnd := elemClassify_nd cfg cx info (forestElemInfos kids)
        (elemInit info segs true) st
      simp only [buildDomTree]
      split
      · exact Or.inl ⟨rfl, rfl⟩
      · split
        · exact Or.inl ⟨rfl, rfl⟩
        · split
          · exact Or.inl ⟨rfl, rfl⟩
          · have hif : ¬ (strToLower info.tagName = "iframe") := by rw [htag]; decide
            rw [if_neg hif]
            rcases elemFinish_anchor info
                (elemClassify cfg cx info (forestElemInfos kids)
                    (elemInit info segs true) st).2.1
                ((buildKids cfg
                    { parent := some info, ancestors := info :: cx.ancestors
                      parentIsBody := false, inIframe := cx.inIframe, inShadow := cx.inShadow
                      parentIframe := cx.parentIframe
                      isParentHighlighted :=
                        (elemClassify cfg cx info (forestElemInfos kids)
                            (elemInit info segs true) st).1 }
                    (some segs) (forestElemTags kids) []
                    (elemClassify cfg cx info (forestElemInfos kids)
                        (elemInit info segs true) st).2.2 kids).1 ++
                  (elemShadow cfg cx info
                      (elemClassify cfg cx info (forestElemInfos kids)
                          (elemInit info segs true) st).1
                      (buildKids cfg
                          { parent := some info, ancestors := info :: cx.ancestors
                            parentIsBody := false, inIframe := cx.inIframe, inShadow := cx.inShadow
                            parentIframe := cx.parentIframe
                            isParentHighlighted :=
                              (elemClassify cfg cx info (forestElemInfos kids)
                                  (elemInit info segs true) st).1 }
                          (some segs) (forestElemTags kids) []
                          (elemClassify cfg cx info (forestElemInfos kids)
                              (elemInit info segs true) st).2.2 kids).2
                      (ShadowSpec.shadow sKids)).1)
                (elemShadow cfg cx info
                    (elemClassify cfg cx info (forestElemInfos kids)
                        (elemInit info segs true) st).1
                    (buildKids cfg
                        { parent := some info, ancestors := info :: cx.ancestors
                          parentIsBody := false, inIframe := cx.inIframe, inShadow := cx.inShadow
                          parentIframe := cx.parentIframe
                          isParentHighlighted :=
                            (elemClassify cfg cx info (forestElemInfos kids)
                                (elemInit info segs true) st).1 }
                        (some segs) (forestElemTags kids) []
                        (elemClassify cfg cx info (forestElemInfos kids)
                            (elemInit info segs true) st).2.2 kids).2
                    (ShadowSpec.shadow sKids)).2
                (by rw [htagnd.2.1]; exact htag)
                (by rw [htagnd.2.2, hattrs]; exact hhref) hw hh with
              ⟨h1, hemp, h2⟩ | ⟨h1, h2, h3⟩
            · refine Or.inl ⟨h1, ?_⟩
              rw [h2]
              obtain ⟨hk, hs⟩ := List.append_eq_nil.mp hemp
              rw [elemShadow_none _ _ _ _ _ _ hs]
              rw [buildKids_none _ _ _ _ _ _ _ hk]
              exact (elemClassify_state _ _ _ _ _ _).1
            · exact Or.inr ⟨_, _, _, h1, h2, h3⟩

/-- Witness for C6 (amended): the scale(0)-style anchor (width 0 and height 0
bounding box, empty, no href) from an initially empty build state; on this
input the dichotomy holds, the pruned side being the one realized. -/
theorem C6_amended_anchor_pruned_witness :
    strToLower (mkElem "a" [] 10 10 [zeroRect] zeroRect).tagName = "a" ∧
    attrTruthy (mkElem "a" [] 10 10 [zeroRect] zeroRect).attributes "href" = false ∧
    (mkElem "a" [] 10 10 [zeroRect] zeroRect).boundingRect.width = 0 ∧
    (mkElem "a" [] 10 10 [zeroRect] zeroRect).boundingRect.height = 0 ∧
    (((buildDomTree (mkCfg defaultArgs (mkPage DomForest.nil))
        { parent := none, ancestors := [], parentIsBody := false, inIframe := false
          inShadow := false, parentIframe := none, isParentHighlighted := false }
        [] { nextId := 0, map := [], hl := 0, assigned := [], ui := emptyUI }
        (DomNode.element (mkElem "a" [] 10 10 [zeroRect] zeroRect)
          DomForest.nil ShadowSpec.noShadow IframeSpec.noDoc)).1 = none ∧
      (buildDomTree (mkCfg defaultArgs (mkPage DomForest.nil))
        { parent := none, ancestors := [], parentIsBody := false, inIframe := false
          inShadow := false, parentIframe := none, isParentHighlighted := false }
        [] { nextId := 0, map := [], hl := 0, assigned := [], ui := emptyUI }
        (DomNode.element (mkElem "a" [] 10 10 [zeroRect] zeroRect)
          DomForest.nil ShadowSpec.noShadow IframeSpec.noDoc)).2.map =
        ({ nextId := 0, map := [], hl := 0, assigned := [], ui := emptyUI } : BuildState).map) ∨
     (∃ i nd rest,
       (buildDomTree (mkCfg defaultArgs (mkPage DomForest.nil))
        { parent := none, ancestors := [], parentIsBody := false, inIframe := false
          inShadow := false, parentIframe := none, isParentHighlighted := false }
        [] { nextId := 0, map := [], hl := 0, assigned := [], ui := emptyUI }
        (DomNode.element (mkElem "a" [] 10 10 [zeroRect] zeroRect)
          DomForest.nil ShadowSpec.noShadow IframeSpec.noDoc)).1 = some i ∧
       (buildDomTree (mkCfg defaultArgs (mkPage DomForest.nil))
        { parent := none, ancestors := [], parentIsBody := false, inIframe := false
          inShadow := false, parentIframe := none, isParentHighlighted := false }
        [] { nextId := 0, map := [], hl := 0, assigned := [], ui := emptyUI }
        (DomNode.element (mkElem "a" [] 10 10 [zeroRect] zeroRect)
          DomForest.nil ShadowSpec.noShadow IframeSpec.noDoc)).2.map =
         (i, nd) :: rest ∧ nd.children ≠ [])) :=
  ⟨by decide, by decide, by decide, by decide,
    C6_amended_anchor_pruned (mkCfg defaultArgs (mkPage DomForest.nil))
      { parent := none, ancestors := [], parentIsBody := false, inIframe := false
        inShadow := false, parentIframe := none, isParentHighlighted := false }
      [] { nextId := 0, map := [], hl := 0, assigned := [], ui := emptyUI }
      (mkElem "a" [] 10 10 [zeroRect] zeroRect) DomForest.nil ShadowSpec.noShadow IframeSpec.noDoc
      (by decide) (by decide) (by decide) (by decide)⟩

/-- Claim C8: when an iframe's content document is inaccessible (the access
throws, e.g. cross-origin), the error is contained: the traversal behaves
exactly as if the iframe had no content document (the subtree is skipped,
nothing propagates), and the iframe node itself is still emitted into the
map with an empty children list, the rest of the state untouched. -/
theorem C8_iframe_isolated (cfg : Config) (cx : NodeCtx) (segs : List String)
    (st : BuildState) (info : ElemInfo) (kids : DomForest)
    (htag : strToLower info.tagName = "iframe")
    (hid : info.idAttr ≠ HIGHLIGHT_CONTAINER_ID)
    (hacc : isElementAccepted info = true)
    (hw : info.boundingRect.width ≠ 0) :
    buildDomTree cfg cx segs st
        (DomNode.element info kids ShadowSpec.noShadow IframeSpec.accessThrows) =
      buildDomTree cfg cx segs st
        (DomNode.element info kids ShadowSpec.noShadow IframeSpec.noDoc) ∧
    ∃ i nd,
      (buildDomTree cfg cx segs st
        (DomNode.element info kids ShadowSpec.noShadow IframeSpec.accessThrows)).1 =
        some i ∧
      (buildDomTree cfg cx segs st
        (DomNode.element info kids ShadowSpec.noShadow IframeSpec.accessThrows)).2.map =
        (i, nd) :: st.map ∧
      nd.children = [] ∧ nd.tagName = "iframe" := by
  have hne : info.tagName ≠ "" := by
    intro h0
    rw [h0] at htag
    exact absurd htag (by decide)
  have htagnd := elemClassify_nd cfg cx info (forestElemInfos kids)
    (elemInit info segs false) st
  have hstate := elemClassify_state cfg cx info (forestElemInfos kids)
    (elemInit info segs false) st
  have red : ∀ ifr : IframeSpec,
      ifr = IframeSpec.accessThrows ∨ ifr = IframeSpec.noDoc →
      buildDomTree cfg cx segs st (DomNode.element info kids ShadowSpec.noShadow ifr) =
        elemFinish info
          (elemClassify cfg cx info (forestElemInfos kids) (elemInit info segs false) st).2.1
          []
          (elemClassify cfg cx info (forestElemInfos kids) (elemInit info segs false) st).2.2 := by
    intro ifr hifr
    simp only [buildDomTree]
    rw [if_neg hid, if_neg (by simp [hacc]), if_neg (by simp [hw]),
      if_pos htag]
    rcases hifr with h | h <;> subst h <;> simp only [elemIframe, elemShadow] <;>
      rw [if_neg hne] <;> rfl
  have hfin :
      elemFinish info
        (elemClassify cfg cx info (forestElemInfos kids) (elemInit info segs false) st).2.1
        []
        (elemClassify cfg cx info (forestElemInfos kids) (elemInit info segs false) st).2.2 =
      (some (elemClassify cfg cx info (forestElemInfos kids) (elemInit info segs false) st).2.2.nextId,
        { (elemClassify cfg cx info (forestElemInfos kids) (elemInit info segs false) st).2.2 with
          nextId := (elemClassify cfg cx info (forestElemInfos kids) (elemInit info segs false) st).2.2.nextId + 1
          map := ((elemClassify cfg cx info (forestElemInfos kids) (elemInit info segs false) st).2.2.nextId,
            { (elemClassify cfg cx info (forestElemInfos kids) (elemInit info segs false) st).2.1 with
              children := [] }) ::
            (elemClassify cfg cx info (forestElemInfos kids) (elemInit info segs false) st).2.2.map }) := by
    unfold elemFinish
    rw [if_neg (by
      simp only [Bool.and_eq_true, decide_eq_true_eq, not_and]
      intro hca
      exact absurd hca.2 hw)]
  refine ⟨(red _ (Or.inl rfl)).trans (red _ (Or.inr rfl)).symm,
    (elemClassify cfg cx info (forestElemInfos kids) (elemInit info segs false) st).2.2.nextId,
    { (elemClassify cfg cx info (forestElemInfos kids) (elemInit info segs false) st).2.1 with
      children := [] }, ?_, ?_, rfl, ?_⟩
  · rw [red _ (Or.inl rfl), hfin]
  · rw [red _ (Or.inl rfl), hfin]
    dsimp only
    rw [hstate.1]
  · dsimp only
    rw [htagnd.2.1]
    unfold elemInit
    dsimp only
    exact htag

/-- Witness for C8: a concrete cross-origin iframe (content-document access
throws) in an initially empty build state. -/
theorem C8_iframe_isolated_witness :
    strToLower (mkElem "iframe" [] 10 10 [fullRect] fullRect).tagName = "iframe" ∧
    (mkElem "iframe" [] 10 10 [fullRect] fullRect).idAttr ≠ HIGHLIGHT_CONTAINER_ID ∧
    isElementAccepted (mkElem "iframe" [] 10 10 [fullRect] fullRect) = true ∧
    (mkElem "iframe" [] 10 10 [fullRect] fullRect).boundingRect.width ≠ 0 ∧
    (buildDomTree (mkCfg defaultArgs (mkPage DomForest.nil))
        { parent := none, ancestors := [], parentIsBody := false, inIframe := false
          inShadow := false, parentIframe := none, isParentHighlighted := false }
        [] { nextId := 0, map := [], hl := 0, assigned := [], ui := emptyUI }
        (DomNode.element (mkElem "iframe" [] 10 10 [fullRect] fullRect)
          DomForest.nil ShadowSpec.noShadow IframeSpec.accessThrows) =
      buildDomTree (mkCfg defaultArgs (mkPage DomForest.nil))
        { parent := none, ancestors := [], parentIsBody := false, inIframe := false
          inShadow := false, parentIframe := none, isParentHighlighted := false }
        [] { nextId := 0, map := [], hl := 0, assigned := [], ui := emptyUI }
        (DomNode.element (mkElem "iframe" [] 10 10 [fullRect] fullRect)
          DomForest.nil ShadowSpec.noShadow IframeSpec.noDoc) ∧
      ∃ i nd,
        (buildDomTree (mkCfg defaultArgs (mkPage DomForest.nil))
          { parent := none, ancestors := [], parentIsBody := false, inIframe := false
            inShadow := false, parentIframe := none, isParentHighlighted := false }
          [] { nextId := 0, map := [], hl := 0, assigned := [], ui := emptyUI }
          (DomNode.element (mkElem "iframe" [] 10 10 [fullRect] fullRect)
            DomForest.nil ShadowSpec.noShadow IframeSpec.accessThrows)).1 = some i ∧
        (buildDomTree (mkCfg defaultArgs (mkPage DomForest.nil))
          { parent := none, ancestors := [], parentIsBody := false, inIframe := false
            inShadow := false, parentIframe := none, isParentHighlighted := false }
          [] { nextId := 0, map := [], hl := 0, assigned := [], ui := emptyUI }
          (DomNode.element (mkElem "iframe" [] 10 10 [fullRect] fullRect)
            DomForest.nil ShadowSpec.noShadow IframeSpec.accessThrows)).2.map =
          (i, nd) ::
            ({ nextId := 0, map := [], hl := 0, assigned := [], ui := emptyUI } : BuildState).map ∧
        nd.children = [] ∧ nd.tagName = "iframe") :=
  ⟨by decide, by decide, by decide, by decide,
    C8_iframe_isolated (mkCfg defaultArgs (mkPage DomForest.nil))
      { parent := none, ancestors := [], parentIsBody := false, inIframe := false
        inShadow := false, parentIframe := none, isParentHighlighted := false }
      [] { nextId := 0, map := [], hl := 0, assigned := [], ui := emptyUI }
      (mkElem "iframe" [] 10 10 [fullRect] fullRect) DomForest.nil
      (by decide) (by decide) (by decide) (by decide)⟩
